import Mathlib

/-!
Verification of the comic-translator five-stage pipeline core.

This file shallowly embeds the Python sources of the repository:
  * `utils/stage_manager.py`         (stage cache on a results directory)
  * `terminology/terminology_manager.py`
  * `translation/text_reorder.py`
  * `translation/text_translator.py`
  * `core/five_stage_pipeline.py`

External adapters (the detection model, the OCR model and the Gemini LLM
client) are black boxes in the source; here each adapter call is a
parameter ("oracle") describing the value the call returned, or that it
raised.  File contents are kept as parsed values rather than byte strings;
Python dicts become insertion-ordered association lists; floating-point
fields that no embedded operation ever reads (angles, confidences,
timings) are omitted, and the one float that is stored (`extraction_rate`)
is kept as an exact ratio.  Timestamps are threaded as an explicit `now`
string parameter.
-/

set_option autoImplicit false

/-! ## Basic record types flowing between stages -/

/-- One OCR result dict produced by `MangaOCRExtractor.extract_from_boxes`
(keys `box_index`, `bbox`, `rendered_bbox`, `text`, `vertical`,
`was_rotated`; the float fields `angle` and `confidence` are unused by the
embedded operations and omitted). -/
structure ExtractedText where
  box_index : Int
  bbox : List Int
  rendered_bbox : List Int
  text : String
  vertical : Bool
  was_rotated : Bool
deriving DecidableEq, Repr

/-- One reordered-text dict (stage-3 output shape): keys `original_index`,
`new_order`, `bbox`, `text`.  The pipeline reads the first three with
`dict.get`, which yields `None` when absent, hence `Option`. -/
structure ReorderedText where
  original_index : Option Int
  new_order : Option Int
  bbox : Option (List Int)
  text : String
deriving DecidableEq, Repr

/-- A translation record in the shape produced by the structured-output
translation path and by `_create_fallback_translations` (all five keys
present). -/
structure STrans where
  original : String
  translated : String
  text_direction : String
  bubble_type : String
  estimated_font_size : Int
deriving DecidableEq, Repr

/-- An element of a translator result's `translated_texts` list.  The
structured path and the exception path produce five-key records (`full`);
the fallback JSON/line parse paths produce two-key records carrying only
`original` and `translated` (`pair`). -/
inductive TransItem where
  | full (t : STrans)
  | pair (original translated : String)
deriving DecidableEq, Repr

/-- `translation_item['original']`. -/
def TransItem.original : TransItem → String
  | .full t => t.original
  | .pair o _ => o

/-- `translation_item['translated']`. -/
def TransItem.translated : TransItem → String
  | .full t => t.translated
  | .pair _ t => t

/-- `translation_item.get('bubble_type', 'pure_white')`. -/
def TransItem.bubbleTypeD : TransItem → String
  | .full t => t.bubble_type
  | .pair _ _ => "pure_white"

/-- `translation_item.get('estimated_font_size', 16)`. -/
def TransItem.fontSizeD : TransItem → Int
  | .full t => t.estimated_font_size
  | .pair _ _ => 16

/-- One merged stage-4 record (the dict built at
`five_stage_pipeline.py` lines 318-327, in key order). -/
structure FinalTrans where
  original_index : Option Int
  new_order : Option Int
  bbox : Option (List Int)
  original : String
  translated : String
  text_direction : String
  bubble_type : String
  estimated_font_size : Int
deriving DecidableEq, Repr

/-- JSON-ish values stored in stage-cache files and result dicts.  List
payloads are tagged by the record type they hold; `vrat n d` models the
float `n / d` exactly (only ever written, never compared or re-read). -/
inductive SVal where
  | vnull
  | vbool (b : Bool)
  | vint (n : Int)
  | vstr (s : String)
  | vrat (num den : Nat)
  | vbboxes (bs : List (List Int))
  | vexts (ts : List ExtractedText)
  | vreords (ts : List ReorderedText)
  | vtransItems (ts : List TransItem)
  | vfinals (ts : List FinalTrans)
  | vterms (m : List (String × String))
deriving DecidableEq, Repr

/-- A parsed JSON object: insertion-ordered key/value pairs (Python dict). -/
abbrev JDict : Type := List (String × SVal)

/-- `d.get(k)` / `d[k]` lookup: first matching key. -/
def jget (d : JDict) (k : String) : Option SVal :=
  (d.find? (fun kv => kv.1 = k)).map (fun kv => kv.2)

/-- Python dict assignment `d[k] = v`: replaces the value in place when the
key exists, otherwise appends at the end (insertion order). -/
def dictSet (d : JDict) (k : String) (v : SVal) : JDict :=
  if d.any (fun kv => kv.1 = k) then
    d.map (fun kv => if kv.1 = k then (k, v) else kv)
  else
    d ++ [(k, v)]

/-- Python truthiness of a value read from a dict (`if cached:`,
`if stage2_result.get('extracted_texts'):` ...). -/
def svalTruthy : Option SVal → Bool
  | none => false
  | some .vnull => false
  | some (.vbool b) => b
  | some (.vint n) => n ≠ 0
  | some (.vstr s) => s ≠ ""
  | some (.vrat n _) => n ≠ 0
  | some (.vbboxes bs) => ¬ bs.isEmpty
  | some (.vexts ts) => ¬ ts.isEmpty
  | some (.vreords ts) => ¬ ts.isEmpty
  | some (.vtransItems ts) => ¬ ts.isEmpty
  | some (.vfinals ts) => ¬ ts.isEmpty
  | some (.vterms m) => ¬ m.isEmpty

/-- `len` of a list-valued entry (0 for anything else; the embedded code
only applies `len` to list values). -/
def svalLen : Option SVal → Nat
  | some (.vbboxes bs) => bs.length
  | some (.vexts ts) => ts.length
  | some (.vreords ts) => ts.length
  | some (.vtransItems ts) => ts.length
  | some (.vfinals ts) => ts.length
  | some (.vterms m) => m.length
  | _ => 0

/-! ## Terminology store (`terminology_manager.py`) -/

/-- The mutable `ja_to_zh` mapping of `TerminologyManager` (the metadata
block and file persistence are orthogonal to the embedded operations). -/
structure TermStore where
  ja_to_zh : List (String × String)
deriving DecidableEq, Repr

/-- `TerminologyManager.add_term` (lines 85-109): returns `false` and
leaves the store unchanged when the source term is already present
(printing a conflict warning when the stored target differs), otherwise
inserts the pair and returns `true`. -/
def add_term (s : TermStore) (japanese chinese : String) : Bool × TermStore :=
  if s.ja_to_zh.any (fun kv => kv.1 = japanese) then
    (false, s)
  else
    (true, ⟨s.ja_to_zh ++ [(japanese, chinese)]⟩)

/-- `TerminologyManager.get_term`. -/
def get_term (s : TermStore) (japanese : String) : Option String :=
  ((s.ja_to_zh.find? (fun kv => kv.1 = japanese))).map (fun kv => kv.2)

/-- One iteration of the `update_terms` loop: apply `add_term` and count
it when it inserted. -/
def add_term_step (acc : Nat × TermStore) (kv : String × String) :
    Nat × TermStore :=
  let r := add_term acc.2 kv.1 kv.2
  (acc.1 + (if r.1 then 1 else 0), r.2)

/-- `TerminologyManager.update_terms` (lines 111-132): folds `add_term`
over the batch in insertion order, returning the number of newly added
terms and the updated store (the `save_dictionary` file write performed
when the count is positive has no effect on the in-memory store). -/
def update_terms (s : TermStore) (new_terminology : List (String × String)) :
    Nat × TermStore :=
  new_terminology.foldl add_term_step (0, s)

/-! ## Text reorder (`text_reorder.py`) -/

/-- `TextReorder._fallback_order` (lines 188-207): identity order, one
entry per input with `new_order` equal to the input position. -/
def fallback_order (extracted_texts : List ExtractedText) : List ReorderedText :=
  extracted_texts.enum.map (fun p =>
    { original_index := some p.2.box_index
      new_order := some (Int.ofNat p.1)
      bbox := some p.2.bbox
      text := p.2.text })

/-- `TextReorder.reorder_texts_with_image` (lines 25-94).  `adapter` is
the outcome of the structured-output Gemini call: `some rs` is the
`reordered_texts` field of the response, `none` means the call raised
(the exception is caught and the fallback order is used). -/
def reorder_texts_with_image (extracted_texts : List ExtractedText)
    (adapter : Option (List ReorderedText)) : List ReorderedText :=
  if extracted_texts.isEmpty then []
  else
    match adapter with
    | some rs => rs
    | none => fallback_order extracted_texts

/-! ## Translation-history windows (`text_translator.py`) -/

/-- The history entries surfaced into the structured-output prompt by
`_create_enhanced_translation_prompt` (lines 170-176):
`translation_history[-10:]` when the history is non-empty. -/
def recent_history_enhanced {α : Type} (translation_history : List α) : List α :=
  if translation_history.length > 0 then
    translation_history.drop (translation_history.length - 10)
  else []

/-- The history entries surfaced into the fallback prompt by
`_prepare_translation_prompt_with_history` (lines 450-462):
`translation_history[-20:]` when longer than 20, else the whole list. -/
def recent_history_fallback {α : Type} (translation_history : List α) : List α :=
  if translation_history.isEmpty then []
  else if translation_history.length > 20 then
    translation_history.drop (translation_history.length - 20)
  else translation_history

/-- The history update performed by `batch_process_folder` after a
successful image (lines 138-143): extend, then keep the most recent 100
when the cap is exceeded.  No update happens when the result carried no
translated texts. -/
def batch_history_step {α : Type} (history new : List α) : List α :=
  if new.isEmpty then history
  else
    let h := history ++ new
    if h.length > 100 then h.drop (h.length - 100) else h

/-! ## Stage cache (`stage_manager.py`) -/

/-- The results directory: a list of (file name, parsed JSON content)
pairs, in creation order. -/
abbrev Dir : Type := List (String × JDict)

/-- `StageManager.stage_names`. -/
def stage_names : List (Nat × String) :=
  [(1, "detection"), (2, "ocr"), (3, "reorder"), (4, "translate"), (5, "update")]

/-- Lookup in `stage_names` (`self.stage_names[stage]`). -/
def stageNameOf (stage : Nat) : Option String :=
  ((stage_names.find? (fun p => p.1 = stage))).map (fun p => p.2)

/-- `f"{image_name}_stage{stage}_{stage_name}.json"`. -/
def stageFilename (image_name : String) (stage : Nat) (stage_name : String) : String :=
  image_name ++ "_stage" ++ toString stage ++ "_" ++ stage_name ++ ".json"

/-- Whether a file exists in the directory. -/
def fexists (d : Dir) (name : String) : Bool :=
  d.any (fun f => f.1 = name)

/-- Write a file: overwrite in place when present, else append. -/
def fwrite (d : Dir) (name : String) (content : JDict) : Dir :=
  if d.any (fun f => f.1 = name) then
    d.map (fun f => if f.1 = name then (name, content) else f)
  else
    d ++ [(name, content)]

/-- Delete a file (`Path.unlink`). -/
def funlink (d : Dir) (name : String) : Dir :=
  d.filter (fun f => f.1 ≠ name)

/-- `StageManager.save_stage_result` (lines 35-63).  Raises `ValueError`
on an invalid stage number; otherwise mutates the caller's `data` dict in
place (adding `timestamp` and `stage`), writes it to the stage file and
returns the file path.  The result carries the path, the mutated dict as
the caller now sees it, and the updated directory. -/
def save_stage_result (stage : Nat) (image_name : String) (data : JDict)
    (d : Dir) (now : String) : Except String (String × JDict × Dir) :=
  match stageNameOf stage with
  | none => .error "invalid stage"
  | some stage_name =>
    let data' := dictSet (dictSet data "timestamp" (.vstr now)) "stage" (.vint stage)
    let filename := stageFilename image_name stage stage_name
    .ok (filename, data', fwrite d filename data')

/-- `StageManager.load_stage_result` (lines 65-91): `ValueError` on an
invalid stage; `None` when the file is absent (a corrupt file also
degrades to `None`, which the parsed-content model subsumes). -/
def load_stage_result (stage : Nat) (image_name : String) (d : Dir) :
    Except String (Option JDict) :=
  match stageNameOf stage with
  | none => .error "invalid stage"
  | some stage_name =>
    let filename := stageFilename image_name stage stage_name
    .ok (((d.find? (fun f => f.1 = filename))).map (fun f => f.2))

/-- `load_stage_result` for the valid stage numbers the pipeline uses
(literals 1-5, for which the `ValueError` branch is unreachable). -/
def loadOk (stage : Nat) (image_name : String) (d : Dir) : Option JDict :=
  match load_stage_result stage image_name d with
  | .ok r => r
  | .error _ => none

/-- `save_stage_result` as invoked by the pipeline with literal stages
1-5 (the `ValueError` branch is unreachable there); returns the updated
directory. -/
def saveOk (stage : Nat) (image_name : String) (data : JDict) (d : Dir)
    (now : String) : Dir :=
  match save_stage_result stage image_name data d now with
  | .ok r => r.2.2
  | .error _ => d

/-- A cached stage result as consulted by `if cached:` — present and
truthy (a non-empty dict). -/
def loadTruthy (stage : Nat) (image_name : String) (d : Dir) : Option JDict :=
  match loadOk stage image_name d with
  | some c => if c.isEmpty then none else some c
  | none => none

/-- `StageManager.clear_stage_result` (lines 106-132): `ValueError` on an
invalid stage; deletes the stage file when it exists and returns `True`;
returns `True` as well when there was no file to delete (the `unlink`
failure branch returning `False` is an I/O error outside this model). -/
def clear_stage_result (stage : Nat) (image_name : String) (d : Dir) :
    Except String (Bool × Dir) :=
  match stageNameOf stage with
  | none => .error "invalid stage"
  | some stage_name =>
    let filename := stageFilename image_name stage stage_name
    if fexists d filename then .ok (true, funlink d filename)
    else .ok (true, d)

/-- `StageManager.clear_all_stages` (lines 134-149): iterates the five
stages, counting every stage whose `clear_stage_result` returned `True`
(the stage numbers come from `stage_names`, so the `ValueError` branch is
unreachable and left as the identity). -/
def clear_all_stages (image_name : String) (d : Dir) : Nat × Dir :=
  stage_names.foldl
    (fun acc p =>
      match clear_stage_result p.1 image_name acc.2 with
      | .ok r => (acc.1 + (if r.1 then 1 else 0), r.2)
      | .error _ => acc)
    (0, d)

/-- Does `s` start with `pat` (over character lists)? -/
def charsStartWith : List Char → List Char → Bool
  | [], _ => true
  | _ :: _, [] => false
  | p :: ps, c :: cs => p == c && charsStartWith ps cs

/-- The characters before the first occurrence of `pat`, when `pat`
occurs: `some` exactly when Python's `pat in s` holds, carrying
`s.split(pat)[0]`. -/
def splitBefore (pat : List Char) : List Char → Option (List Char)
  | [] => none
  | c :: cs =>
    if charsStartWith pat (c :: cs) then some []
    else (splitBefore pat cs).map (fun pre => c :: pre)

/-- `'_stage' in file_name` and `file_name.split('_stage')[0]` combined:
the image-name part before the first `_stage`, when present. -/
def imageNameBefore? (file_name : String) : Option String :=
  (splitBefore "_stage".toList file_name.toList).map (fun cs => String.mk cs)

/-- Python `s.endswith(post)` over character lists. -/
def strEndsWith (s post : String) : Bool :=
  post.toList.isSuffixOf s.toList

/-- `StageManager.list_results` without an image filter: the names of the
`*.json` files of the results directory (sizes and mtimes are reported by
the source but unused by the sweep). -/
def list_results_names (d : Dir) : List String :=
  (d.map (fun f => f.1)).filter (fun n => strEndsWith n ".json")

/-- `FiveStagePipeline.clear_cache` (lines 481-507): with an image name,
clear that image's five stages; otherwise sweep the listed file names,
and for every name containing `_stage` clear all stages of the image-name
prefix before it, accumulating the counts. -/
def clear_cache (image_name : Option String) (d : Dir) : Nat × Dir :=
  match image_name with
  | some name => clear_all_stages name d
  | none =>
    (list_results_names d).foldl
      (fun acc file_name =>
        match imageNameBefore? file_name with
        | some img_name =>
          let r := clear_all_stages img_name acc.2
          (acc.1 + r.1, r.2)
        | none => acc)
      (0, d)

/-! ## Text translator (`text_translator.py`) -/

/-- The parsed structured-output response of the Gemini call used by
`translate_texts_with_history`: the `translations` array and the
`new_terminology` array already converted to pairs (the source converts
well-formed `japanese`/`chinese` entries into a dict). -/
structure StructuredResp where
  translations : List STrans
  new_terminology : List (String × String)
deriving DecidableEq, Repr

/-- Outcome of the fallback path's raw Gemini call in
`_fallback_translation`: the call raised, returned a falsy response, or
returned a response abstracted by its JSON-extraction outcome (`parsed`,
`none` when no JSON object with a `translated_texts` field could be
decoded) together with its cleaned non-comment lines as used by
`_fallback_parse_response`. -/
inductive FallbackCall where
  | raises (msg : String)
  | noResponse
  | responds (parsed : Option (List TransItem × List (String × String)))
      (lines : List String)
deriving DecidableEq, Repr

/-- The translator result dict: keys `translated_texts`,
`new_terminology`, `success`, and `error` in the branches that add it. -/
structure TransResult where
  translated_texts : List TransItem
  new_terminology : List (String × String)
  success : Bool
  error : Option String
deriving DecidableEq, Repr

/-- The translator result as the Python dict it is, in key order. -/
def TransResult.toDict (r : TransResult) : JDict :=
  [("translated_texts", .vtransItems r.translated_texts),
   ("new_terminology", .vterms r.new_terminology),
   ("success", .vbool r.success)]
  ++ (match r.error with
      | some e => [("error", .vstr e)]
      | none => [])

/-- `TextTranslator._create_fallback_translations` (lines 601-620):
identity records with default direction/bubble/font fields. -/
def create_fallback_translations (texts : List String) : List TransItem :=
  texts.map (fun t =>
    .full { original := t, translated := t, text_direction := "horizontal",
            bubble_type := "pure_white", estimated_font_size := 16 })

/-- `TextTranslator._fallback_parse_response` (lines 526-560): pair the
i-th input with the i-th cleaned response line, falling back to the input
itself when the lines run out — always exactly one record per input. -/
def fallback_parse_response (lines : List String) (original_texts : List String) :
    List TransItem :=
  original_texts.enum.map (fun p =>
    match lines[p.1]? with
    | some l => .pair p.2 l
    | none => .pair p.2 p.2)

/-- `TextTranslator._parse_translation_response_with_terminology`
(lines 479-524): accept the decoded `translated_texts` only when its
length matches the input count; otherwise (or when decoding failed) use
the padded line parse, which drops any decoded terminology. -/
def parse_translation_response_with_terminology
    (parsed : Option (List TransItem × List (String × String)))
    (lines : List String) (original_texts : List String) :
    List TransItem × List (String × String) :=
  match parsed with
  | some (ts, terms) =>
    if ts.length = original_texts.length then (ts, terms)
    else (fallback_parse_response lines original_texts, [])
  | none => (fallback_parse_response lines original_texts, [])

/-- `TextTranslator._fallback_translation` (lines 279-358): empty input
fails; an adapter exception yields `success=False` with identity
translations; an empty response yields `success=False` with no
translations; otherwise the parsed (or padded) translations are returned
with `success=True`. -/
def fallback_translation (texts : List String) (call : FallbackCall) : TransResult :=
  if texts.isEmpty then
    { translated_texts := [], new_terminology := [], success := false, error := none }
  else
    match call with
    | .raises msg =>
      { translated_texts := create_fallback_translations texts,
        new_terminology := [], success := false, error := some msg }
    | .noResponse =>
      { translated_texts := [], new_terminology := [], success := false,
        error := some "Empty API response" }
    | .responds parsed lines =>
      let r := parse_translation_response_with_terminology parsed lines texts
      { translated_texts := r.1, new_terminology := r.2, success := true,
        error := none }

/-- `TextTranslator.translate_texts_with_history` (lines 37-153).
`structured` is the structured-output Gemini call's outcome (`none` when
it raised, in which case the fallback path runs with outcome `fb`).  When
the structured call returns, its translations are taken as-is with
`success=True` — no count check happens on this path.  Prompt
construction (terminology, history window, image) does not influence the
returned value and is modelled separately. -/
def translate_texts_with_history (texts : List String)
    (structured : Option StructuredResp) (fb : FallbackCall) : TransResult :=
  if texts.isEmpty then
    { translated_texts := [], new_terminology := [], success := false, error := none }
  else
    match structured with
    | some resp =>
      { translated_texts := resp.translations.map .full,
        new_terminology := resp.new_terminology, success := true, error := none }
    | none => fallback_translation texts fb

/-! ## Pipeline orchestrator (`five_stage_pipeline.py`) -/

/-- `stage4_translate_with_history`'s `reordered_texts` argument: a list
of dicts (the stage-3 shape) or a list of plain strings, mirroring the
`isinstance(reordered_texts[0], dict)` dynamic check. -/
inductive ReorderedInput where
  | dicts (rs : List ReorderedText)
  | strs (ss : List String)
deriving DecidableEq, Repr

/-- `if not reordered_texts:`. -/
def ReorderedInput.isEmpty : ReorderedInput → Bool
  | .dicts rs => rs.isEmpty
  | .strs ss => ss.isEmpty

/-- `len(reordered_texts)`. -/
def ReorderedInput.length : ReorderedInput → Nat
  | .dicts rs => rs.length
  | .strs ss => ss.length

/-- `ocr_metadata.get(original_index, {})`: the metadata dict is built by
inserting each stage-2 item under its `box_index`, so a duplicated index
keeps the last item; `None` is never a key. -/
def ocr_metadata_get (meta : List ExtractedText) (idx : Option Int) :
    Option ExtractedText :=
  match idx with
  | none => none
  | some i => meta.reverse.find? (fun e => e.box_index = i)

/-- `ocr_info.get('vertical', False)` after the metadata lookup. -/
def ocr_vertical (meta : List ExtractedText) (idx : Option Int) : Bool :=
  match ocr_metadata_get meta idx with
  | some e => e.vertical
  | none => false

/-- The record built for one reordered item inside the merge loop of
`stage4_translate_with_history` (lines 313-327), in key order: positional
fields from the stage-3 dict, texts from the translated record, and
`text_direction` decided solely by the OCR `vertical` flag joined through
`original_index`. -/
def mergeOne (ocr_metadata : List ExtractedText) (r : ReorderedText)
    (titem : TransItem) : FinalTrans :=
  { original_index := r.original_index
    new_order := r.new_order
    bbox := r.bbox
    original := titem.original
    translated := titem.translated
    text_direction :=
      if ocr_vertical ocr_metadata r.original_index then "vertical"
      else "horizontal"
    bubble_type := titem.bubbleTypeD
    estimated_font_size := titem.fontSizeD }

/-- The merge loop of `stage4_translate_with_history` (lines 307-328):
the guard `if i < len(result['translated_texts'])` keeps exactly the
inputs having a translated record at their index, so the loop pairs the
i-th reordered dict with the i-th translated record and skips the rest. -/
def stage4_merge (rs : List ReorderedText) (translated : List TransItem)
    (ocr_metadata : List ExtractedText) : List FinalTrans :=
  rs.enum.filterMap (fun p =>
    (translated[p.1]?).map (fun titem => mergeOne ocr_metadata p.2 titem))

/-- The early-return failure dict
`{'translated_texts': [], 'new_terminology': {}, 'success': False}`. -/
def stage4FailDict : JDict :=
  [("translated_texts", .vtransItems []),
   ("new_terminology", .vterms []),
   ("success", .vbool false)]

/-- The `extracted_texts` list of the stage-2 cache entry, guarded by
`if stage2_result and stage2_result.get('extracted_texts'):` (an absent
entry, an absent key or a falsy value all leave the metadata empty). -/
def stage4OcrMetadata (d : Dir) (image_name : String) : List ExtractedText :=
  match loadTruthy 2 image_name d with
  | some s2 =>
    match jget s2 "extracted_texts" with
    | some (.vexts es) => es
    | _ => []
  | none => []

/-- `text_strings`: the non-empty `text` fields in input order
(`[item.get('text','') for item in reordered_texts if item.get('text')]`
resp. `[str(t) for t in reordered_texts if t]`). -/
def stage4TextStrings : ReorderedInput → List String
  | .dicts rs => (rs.filter (fun r => r.text ≠ "")).map (fun r => r.text)
  | .strs ss => ss.filter (fun s => s ≠ "")

/-- The dict returned by the compute path of
`stage4_translate_with_history`: the translator's result dict, with its
`translated_texts` entry overwritten in place by the merged records when
the input was dict-shaped (line 328). -/
def stage4_ret_dict (reordered : ReorderedInput) (result : TransResult)
    (ocr_metadata : List ExtractedText) : JDict :=
  match reordered with
  | .dicts rs =>
    dictSet result.toDict "translated_texts"
      (.vfinals (stage4_merge rs result.translated_texts ocr_metadata))
  | .strs _ => result.toDict

/-- The `save_result` summary dict persisted by
`stage4_translate_with_history` (lines 330-340), in key order. -/
def stage4_save_dict (reordered : ReorderedInput) (retDict : JDict)
    (result : TransResult) (history_len : Nat) (image_path : Option String)
    (ocr_metadata : List ExtractedText) : JDict :=
  [("total_texts", .vint (Int.ofNat reordered.length)),
   ("translated_count", .vint (Int.ofNat (svalLen (jget retDict "translated_texts")))),
   ("translated_texts", (jget retDict "translated_texts").getD (.vtransItems [])),
   ("new_terminology", .vterms result.new_terminology),
   ("success", .vbool result.success),
   ("history_context_used", .vint (Int.ofNat history_len)),
   ("used_image_analysis", .vbool image_path.isSome),
   ("used_ocr_vertical_info", .vbool (ocr_metadata.length > 0))]

/-- `FiveStagePipeline.stage4_translate_with_history` (lines 261-349).
A truthy cached entry is returned as-is (after a `len` on its
`translated_texts`, whose absence raises — modelled as `none`).
Otherwise the texts are translated, merged with the stage-2 vertical
flags when the input is dict-shaped, and the summary record is saved to
the stage-4 cache unconditionally before the (differently shaped)
translator result is returned. -/
def stage4_translate_with_history (d : Dir) (history : List FinalTrans)
    (reordered : ReorderedInput) (image_name : String)
    (image_path : Option String) (structured : Option StructuredResp)
    (fb : FallbackCall) (now : String) : Option JDict × Dir :=
  match loadTruthy 4 image_name d with
  | some cached =>
    match jget cached "translated_texts" with
    | some _ => (some cached, d)
    | none => (none, d)
  | none =>
    if reordered.isEmpty then (some stage4FailDict, d)
    else
      let ocr_metadata := stage4OcrMetadata d image_name
      let text_strings := stage4TextStrings reordered
      if text_strings.isEmpty then (some stage4FailDict, d)
      else
        let result := translate_texts_with_history text_strings structured fb
        let retDict := stage4_ret_dict reordered result ocr_metadata
        let save_result := stage4_save_dict reordered retDict result
          history.length image_path ocr_metadata
        (some retDict, saveOk 4 image_name save_result d now)

/-- `FiveStagePipeline.stage1_detect_text_boxes` (lines 351-369).
`detect` is the dict returned by `detector.detect_with_metadata`.  The
`text_boxes` entry is read before the dict (with injected timestamp and
stage tag) is saved; reading it from a malformed value raises (`none`). -/
def stage1_detect_text_boxes (d : Dir) (image_name : String) (detect : JDict)
    (now : String) : Option (List (List Int)) × Dir :=
  match loadTruthy 1 image_name d with
  | some cached =>
    match jget cached "text_boxes" with
    | some (.vbboxes bs) => (some bs, d)
    | _ => (none, d)
  | none =>
    match jget detect "text_boxes" with
    | some (.vbboxes bs) => (some bs, saveOk 1 image_name detect d now)
    | _ => (none, d)

/-- The result dict persisted by `stage2_ocr_extraction`
(lines 385-390), in key order. -/
def stage2_save_dict (text_boxes : List (List Int))
    (ocr : List ExtractedText) : JDict :=
  [("total_boxes", .vint (Int.ofNat text_boxes.length)),
   ("successful_extractions", .vint (Int.ofNat ocr.length)),
   ("extraction_rate",
     if text_boxes.isEmpty then .vint 0 else .vrat ocr.length text_boxes.length),
   ("extracted_texts", .vexts ocr)]

/-- `FiveStagePipeline.stage2_ocr_extraction` (lines 371-395).  `ocr` is
the list returned by `ocr_extractor.extract_from_boxes`. -/
def stage2_ocr_extraction (d : Dir) (text_boxes : List (List Int))
    (image_name : String) (ocr : List ExtractedText) (now : String) :
    Option (List ExtractedText) × Dir :=
  match loadTruthy 2 image_name d with
  | some cached =>
    match jget cached "extracted_texts" with
    | some (.vexts es) => (some es, d)
    | _ => (none, d)
  | none =>
    let result := stage2_save_dict text_boxes ocr
    (some ocr, saveOk 2 image_name result d now)

/-- The result dict persisted by `stage3_reorder_text` (lines 414-420),
in key order. -/
def stage3_save_dict (extracted_texts : List ExtractedText)
    (reordered : List ReorderedText) : JDict :=
  [("total_texts", .vint (Int.ofNat extracted_texts.length)),
   ("reordered_count", .vint (Int.ofNat reordered.length)),
   ("reordered_texts", .vreords reordered),
   ("success", .vbool (reordered.length > 0)),
   ("method", .vstr "image_based_structured_output")]

/-- `FiveStagePipeline.stage3_reorder_text` (lines 397-434).  The embedded
`reorder_texts_with_image` is total (its internal fallback absorbs the
adapter exception), so the orchestrator's `fallback_text_only` except
branch is unreachable here. -/
def stage3_reorder_text (d : Dir) (extracted_texts : List ExtractedText)
    (image_name : String) (reorderAdapter : Option (List ReorderedText))
    (now : String) : Option (List ReorderedText) × Dir :=
  match loadTruthy 3 image_name d with
  | some cached =>
    match jget cached "reordered_texts" with
    | some (.vreords rs) => (some rs, d)
    | _ => (none, d)
  | none =>
    if extracted_texts.isEmpty then (some [], d)
    else
      let reordered := reorder_texts_with_image extracted_texts reorderAdapter
      let result := stage3_save_dict extracted_texts reordered
      (some reordered, saveOk 3 image_name result d now)

/-- `FiveStagePipeline.stage5_update_terminology` (lines 436-446): no
cache; a no-op on an empty batch, otherwise `update_terms`. -/
def stage5_update_terminology (store : TermStore)
    (new_terminology : List (String × String)) : TermStore :=
  if new_terminology.isEmpty then store
  else (update_terms store new_terminology).2

/-- Success or failure of each component constructor invoked by
`FiveStagePipeline.__init__` (lines 38-55), in construction order. -/
structure InitOutcomes where
  detector_ok : Bool
  ocr_ok : Bool
  terminology_ok : Bool
  stage_manager_ok : Bool
  gemini_ok : Bool
  reorder_ok : Bool
  translator_ok : Bool
deriving DecidableEq, Repr

/-- The orchestrator state owned by `FiveStagePipeline`. -/
structure PipelineState where
  initialized : Bool
  translation_history : List FinalTrans
  termStore : TermStore
  dir : Dir
deriving DecidableEq, Repr

/-- `FiveStagePipeline.__init__` (lines 26-55): the component
constructors run in order inside a `try`; any failure is caught, printed
and recorded as `initialized = False` — the constructor itself always
returns a (possibly partially-initialized) object and never propagates
the failure. -/
def pipeline_init (o : InitOutcomes) (store : TermStore) (d : Dir) : PipelineState :=
  { initialized := o.detector_ok && o.ocr_ok && o.terminology_ok &&
      o.stage_manager_ok && o.gemini_ok && o.reorder_ok && o.translator_ok
    translation_history := []
    termStore := store
    dir := d }

/-- The adapter outcomes consulted while processing one image. -/
structure Oracles where
  detect : JDict
  ocr : List ExtractedText
  reorder : Option (List ReorderedText)
  structuredTrans : Option StructuredResp
  fallbackTrans : FallbackCall
deriving DecidableEq, Repr

/-- `result.get("new_terminology", {})` as consumed by stage 5. -/
def getTermsD (ret : JDict) : List (String × String) :=
  match jget ret "new_terminology" with
  | some (.vterms m) => m
  | _ => []

/-- The counts and payload of the success dict returned by
`process_manga_with_history` (lines 237-255); the timing fields and
echoed paths are omitted. -/
structure ProcessSummary where
  text_boxes_count : Nat
  extracted_count : Nat
  reordered_count : Nat
  translated_count : Nat
  new_terminology_count : Nat
  translated_texts : Option SVal
deriving DecidableEq, Repr

/-- The value returned by `process_manga_with_history`: Python `None`
when the system is not initialized, a `success=False` dict with its error
message, or the success summary. -/
inductive ProcessResult where
  | noneResult
  | fail (error : String)
  | ok (summary : ProcessSummary)
deriving DecidableEq, Repr

/-- `FiveStagePipeline.process_manga_with_history` (lines 182-259): the
four stages in sequence with their empty-result guards, the stage-4
success check, and the stage-5 terminology update.  `image_name` is
`Path(image_path).stem` (path manipulation kept abstract); the output
copy performed for an explicit `output_path` touches only files outside
the results directory and is omitted.  A `KeyError` escaping a stage is
caught by the surrounding `try` and surfaces as a failure dict. -/
def process_manga_with_history (st : PipelineState) (o : Oracles)
    (image_name : String) (image_path : String) (now : String) :
    ProcessResult × PipelineState :=
  if ¬ st.initialized then (.noneResult, st)
  else
    match stage1_detect_text_boxes st.dir image_name o.detect now with
    | (none, d1) => (.fail "KeyError", { st with dir := d1 })
    | (some text_boxes, d1) =>
      if text_boxes.isEmpty then
        (.fail "No text boxes detected", { st with dir := d1 })
      else
        match stage2_ocr_extraction d1 text_boxes image_name o.ocr now with
        | (none, d2) => (.fail "KeyError", { st with dir := d2 })
        | (some extracted_texts, d2) =>
          if extracted_texts.isEmpty then
            (.fail "No text extracted", { st with dir := d2 })
          else
            match stage3_reorder_text d2 extracted_texts image_name o.reorder now with
            | (none, d3) => (.fail "KeyError", { st with dir := d3 })
            | (some reordered_texts, d3) =>
              if reordered_texts.isEmpty then
                (.fail "Text reordering failed", { st with dir := d3 })
              else
                match stage4_translate_with_history d3 st.translation_history
                    (.dicts reordered_texts) image_name (some image_path)
                    o.structuredTrans o.fallbackTrans now with
                | (none, d4) => (.fail "KeyError", { st with dir := d4 })
                | (some tr, d4) =>
                  if ¬ svalTruthy (jget tr "success") then
                    (.fail "Translation failed", { st with dir := d4 })
                  else
                    let store' := stage5_update_terminology st.termStore (getTermsD tr)
                    (.ok { text_boxes_count := text_boxes.length
                           extracted_count := extracted_texts.length
                           reordered_count := reordered_texts.length
                           translated_count := svalLen (jget tr "translated_texts")
                           new_terminology_count := (getTermsD tr).length
                           translated_texts := jget tr "translated_texts" },
                     { st with dir := d4, termStore := store' })

/-! ## Association-list and cache lemmas -/

section AssocLemmas

variable {β : Type}

theorem find?_map_set_self (d : List (String × β)) (k : String) (v : β)
    (h : d.any (fun kv => kv.1 = k) = true) :
    (d.map (fun kv => if kv.1 = k then (k, v) else kv)).find?
        (fun kv => kv.1 = k) = some (k, v) := by
  induction d with
  | nil => simp at h
  | cons hd tl ih =>
    rw [List.map_cons, List.find?_cons]
    by_cases hh : hd.1 = k
    · rw [if_pos hh]
      simp
    · rw [if_neg hh]
      have h' : tl.any (fun kv => kv.1 = k) = true := by
        simp only [List.any_cons, hh, decide_False, Bool.false_or] at h
        exact h
      have hp : (decide (hd.1 = k)) = false := by simp [hh]
      rw [hp]
      exact ih h'

theorem find?_map_set_ne (d : List (String × β)) (k k' : String) (v : β)
    (hk : k' ≠ k) :
    (d.map (fun kv => if kv.1 = k' then (k', v) else kv)).find?
        (fun kv => kv.1 = k) = d.find? (fun kv => kv.1 = k) := by
  induction d with
  | nil => simp
  | cons hd tl ih =>
    rw [List.map_cons, List.find?_cons, List.find?_cons]
    by_cases hh : hd.1 = k'
    · rw [if_pos hh]
      have h2 : (decide ((k', v).1 = k)) = false := by simp [hk]
      have h3 : (decide (hd.1 = k)) = false := by simp [hh, hk]
      rw [h2, h3]
      exact ih
    · rw [if_neg hh]
      cases hp : decide (hd.1 = k) <;> simp [ih]

theorem find?_set_self (d : List (String × β)) (k : String) (v : β) :
    (if d.any (fun kv => kv.1 = k) then
        d.map (fun kv => if kv.1 = k then (k, v) else kv)
      else d ++ [(k, v)]).find? (fun kv => kv.1 = k) = some (k, v) := by
  by_cases h : d.any (fun kv => kv.1 = k)
  · simp only [h, if_true]
    exact find?_map_set_self d k v h
  · simp only [h, if_false, List.find?_append]
    have hn : d.find? (fun kv => kv.1 = k) = none := by
      rw [List.find?_eq_none]
      intro x hx hp
      exact absurd (List.any_eq_true.mpr ⟨x, hx, hp⟩) h
    simp [hn, List.find?_cons]

theorem find?_set_ne (d : List (String × β)) (k k' : String) (v : β) (hk : k' ≠ k) :
    (if d.any (fun kv => kv.1 = k') then
        d.map (fun kv => if kv.1 = k' then (k', v) else kv)
      else d ++ [(k', v)]).find? (fun kv => kv.1 = k) =
      d.find? (fun kv => kv.1 = k) := by
  by_cases h : d.any (fun kv => kv.1 = k')
  · simp only [h, if_true]
    exact find?_map_set_ne d k k' v hk
  · simp only [h, if_false, List.find?_append]
    simp [List.find?_cons, hk]

end AssocLemmas

theorem jget_dictSet_self (d : JDict) (k : String) (v : SVal) :
    jget (dictSet d k v) k = some v := by
  unfold jget dictSet
  rw [find?_set_self]
  rfl

theorem jget_dictSet_ne (d : JDict) (k k' : String) (v : SVal) (hk : k' ≠ k) :
    jget (dictSet d k' v) k = jget d k := by
  unfold jget dictSet
  rw [find?_set_ne d k k' v hk]

theorem dictSet_ne_nil (d : JDict) (k : String) (v : SVal) : dictSet d k v ≠ [] := by
  unfold dictSet
  by_cases h : d.any (fun kv => kv.1 = k)
  · simp only [h, if_true]
    intro hc
    rw [List.map_eq_nil_iff] at hc
    subst hc
    simp at h
  · simp [h]

/-- The dict a stage-cache entry holds after `save_stage_result` injected
the timestamp and the stage tag. -/
def savedData (stage : Nat) (data : JDict) (now : String) : JDict :=
  dictSet (dictSet data "timestamp" (.vstr now)) "stage" (.vint stage)

theorem saveOk_eq (stage : Nat) (image_name : String) (data : JDict) (d : Dir)
    (now : String) (sn : String) (h : stageNameOf stage = some sn) :
    saveOk stage image_name data d now =
      fwrite d (stageFilename image_name stage sn) (savedData stage data now) := by
  unfold saveOk save_stage_result
  rw [h]
  rfl

theorem loadOk_fwrite_self (stage : Nat) (image_name : String) (d : Dir)
    (c : JDict) (sn : String) (h : stageNameOf stage = some sn) :
    loadOk stage image_name (fwrite d (stageFilename image_name stage sn) c) =
      some c := by
  unfold loadOk load_stage_result fwrite
  rw [h]
  simp only [find?_set_self]
  rfl

theorem loadOk_saveOk (stage : Nat) (image_name : String) (data : JDict)
    (d : Dir) (now : String) (sn : String) (h : stageNameOf stage = some sn) :
    loadOk stage image_name (saveOk stage image_name data d now) =
      some (savedData stage data now) := by
  rw [saveOk_eq stage image_name data d now sn h]
  exact loadOk_fwrite_self stage image_name d _ sn h

theorem savedData_ne_nil (stage : Nat) (data : JDict) (now : String) :
    savedData stage data now ≠ [] := by
  unfold savedData
  exact dictSet_ne_nil _ _ _

theorem loadTruthy_saveOk (stage : Nat) (image_name : String) (data : JDict)
    (d : Dir) (now : String) (sn : String) (h : stageNameOf stage = some sn) :
    loadTruthy stage image_name (saveOk stage image_name data d now) =
      some (savedData stage data now) := by
  unfold loadTruthy
  rw [loadOk_saveOk stage image_name data d now sn h]
  simp [List.isEmpty_iff, savedData_ne_nil]

theorem jget_savedData_ne (stage : Nat) (data : JDict) (now : String)
    (k : String) (h1 : k ≠ "timestamp") (h2 : k ≠ "stage") :
    jget (savedData stage data now) k = jget data k := by
  unfold savedData
  rw [jget_dictSet_ne _ _ _ _ (fun hc => h2 hc.symm),
    jget_dictSet_ne _ _ _ _ (fun hc => h1 hc.symm)]

/-! ## Merge-loop lemmas -/

theorem filterMap_enumFrom_zipWith {α β γ : Type} (g : α → β → γ) (ts : List β) :
    ∀ (rs : List α) (n : Nat),
      ((List.enumFrom n rs).filterMap
          (fun p => (ts[p.1]?).map (fun t => g p.2 t))) =
        List.zipWith g rs (ts.drop n) := by
  intro rs
  induction rs with
  | nil => intro n; simp
  | cons a rs' ih =>
    intro n
    rw [List.enumFrom_cons, List.filterMap_cons]
    by_cases h : n < ts.length
    · rw [List.getElem?_eq_getElem h, List.drop_eq_getElem_cons h,
        List.zipWith_cons_cons]
      simp [ih (n + 1)]
    · have h1 : ts[n]? = none := List.getElem?_eq_none (Nat.le_of_not_lt h)
      have h2 : ts.drop n = [] := List.drop_eq_nil_of_le (Nat.le_of_not_lt h)
      have h3 : ts.drop (n + 1) = [] :=
        List.drop_eq_nil_of_le (Nat.le_succ_of_le (Nat.le_of_not_lt h))
      rw [h1, h2]
      simp [ih (n + 1), h3]

theorem stage4_merge_eq_zipWith (rs : List ReorderedText) (ts : List TransItem)
    (meta : List ExtractedText) :
    stage4_merge rs ts meta = List.zipWith (mergeOne meta) rs ts := by
  unfold stage4_merge List.enum
  exact (filterMap_enumFrom_zipWith (mergeOne meta) ts rs 0).trans
    (by rw [List.drop_zero])

theorem stage4_merge_length (rs : List ReorderedText) (ts : List TransItem)
    (meta : List ExtractedText) :
    (stage4_merge rs ts meta).length = min rs.length ts.length := by
  rw [stage4_merge_eq_zipWith]
  exact List.length_zipWith _ rs ts

theorem zipWith_getElem? {α β γ : Type} (g : α → β → γ) (as : List α)
    (bs : List β) (i : Nat) :
    (List.zipWith g as bs)[i]? =
      match as[i]?, bs[i]? with
      | some a, some b => some (g a b)
      | _, _ => none := by
  induction as generalizing bs i with
  | nil => simp
  | cons a as' ih =>
    cases bs with
    | nil => simp
    | cons b bs' =>
      cases i with
      | zero => simp
      | succ j => simpa using ih bs' j

/-! ## Translator result lemmas -/

theorem jget_toDict_translated (r : TransResult) :
    jget r.toDict "translated_texts" = some (.vtransItems r.translated_texts) := by
  simp [jget, TransResult.toDict, List.find?_cons]

theorem jget_toDict_success (r : TransResult) :
    jget r.toDict "success" = some (.vbool r.success) := by
  simp [jget, TransResult.toDict, List.find?_cons, List.find?_append]

theorem jget_toDict_terms (r : TransResult) :
    jget r.toDict "new_terminology" = some (.vterms r.new_terminology) := by
  simp [jget, TransResult.toDict, List.find?_cons]

theorem translate_structured (texts : List String) (resp : StructuredResp)
    (fb : FallbackCall) (h : texts ≠ []) :
    translate_texts_with_history texts (some resp) fb =
      { translated_texts := resp.translations.map .full
        new_terminology := resp.new_terminology
        success := true
        error := none } := by
  unfold translate_texts_with_history
  simp [List.isEmpty_iff, h]

theorem translate_raises (texts : List String) (msg : String) (h : texts ≠ []) :
    translate_texts_with_history texts none (.raises msg) =
      { translated_texts := create_fallback_translations texts
        new_terminology := []
        success := false
        error := some msg } := by
  unfold translate_texts_with_history fallback_translation
  simp [List.isEmpty_iff, h]

theorem translate_responds (texts : List String)
    (parsed : Option (List TransItem × List (String × String)))
    (lines : List String) (h : texts ≠ []) :
    (translate_texts_with_history texts none (.responds parsed lines)).success = true ∧
      (translate_texts_with_history texts none
          (.responds parsed lines)).translated_texts.length = texts.length := by
  unfold translate_texts_with_history fallback_translation
  simp only [List.isEmpty_iff, h, if_neg h]
  constructor
  · rfl
  · show (parse_translation_response_with_terminology parsed lines texts).1.length = _
    unfold parse_translation_response_with_terminology
    match parsed with
    | none => simp [fallback_parse_response, List.enum_length]
    | some (ts, terms) =>
      by_cases hl : ts.length = texts.length
      · simp [hl]
      · simp [hl, fallback_parse_response, List.enum_length]

theorem create_fallback_translations_length (texts : List String) :
    (create_fallback_translations texts).length = texts.length := by
  simp [create_fallback_translations]

/-! ## Terminology fold lemmas -/

/-- Whether a source term is already present
(`japanese in self.terminology_data["ja_to_zh"]`). -/
def term_present (s : TermStore) (k : String) : Bool :=
  s.ja_to_zh.any (fun kv => kv.1 = k)

theorem add_term_of_present (s : TermStore) (a b : String)
    (h : term_present s a = true) : add_term s a b = (false, s) := by
  unfold add_term
  unfold term_present at h
  simp [h]

theorem term_present_add_term_mono (s : TermStore) (a b k : String)
    (h : term_present s k = true) : term_present (add_term s a b).2 k = true := by
  unfold add_term
  by_cases hp : s.ja_to_zh.any (fun kv => kv.1 = a)
  · simp [hp, h]
  · unfold term_present at h ⊢
    simp only [hp, if_false]
    rcases List.any_eq_true.mp h with ⟨kv, hmem, hk⟩
    exact List.any_eq_true.mpr ⟨kv, List.mem_append_left _ hmem, hk⟩

theorem term_present_add_term_self (s : TermStore) (a b : String) :
    term_present (add_term s a b).2 a = true := by
  unfold add_term
  by_cases hp : s.ja_to_zh.any (fun kv => kv.1 = a)
  · simp [hp, term_present]
  · unfold term_present
    simp only [hp, if_false]
    exact List.any_eq_true.mpr
      ⟨(a, b), List.mem_append_right _ (List.mem_singleton.mpr rfl), by simp⟩

theorem foldl_add_term_step_shift (tl : List (String × String)) :
    ∀ (c : Nat) (s : TermStore),
      tl.foldl add_term_step (c, s) =
        (c + (tl.foldl add_term_step (0, s)).1, (tl.foldl add_term_step (0, s)).2) := by
  induction tl with
  | nil => intro c s; simp
  | cons hd tl ih =>
    intro c s
    rw [List.foldl_cons, List.foldl_cons]
    have hstep : add_term_step (c, s) hd =
        (c + (if (add_term s hd.1 hd.2).1 then 1 else 0), (add_term s hd.1 hd.2).2) := rfl
    have hstep0 : add_term_step (0, s) hd =
        ((if (add_term s hd.1 hd.2).1 then 1 else 0), (add_term s hd.1 hd.2).2) := by
      simp [add_term_step]
    rw [hstep, hstep0, ih _ _, ih (if (add_term s hd.1 hd.2).1 then 1 else 0) _]
    simp [Nat.add_assoc]

theorem update_terms_cons (s : TermStore) (hd : String × String)
    (tl : List (String × String)) :
    update_terms s (hd :: tl) =
      ((if (add_term s hd.1 hd.2).1 then 1 else 0) +
          (update_terms (add_term s hd.1 hd.2).2 tl).1,
        (update_terms (add_term s hd.1 hd.2).2 tl).2) := by
  unfold update_terms
  rw [List.foldl_cons]
  have hstep0 : add_term_step (0, s) hd =
      ((if (add_term s hd.1 hd.2).1 then 1 else 0), (add_term s hd.1 hd.2).2) := by
    simp [add_term_step]
  rw [hstep0, foldl_add_term_step_shift]

theorem update_terms_snd_cons (s : TermStore) (hd : String × String)
    (tl : List (String × String)) :
    (update_terms s (hd :: tl)).2 = (update_terms (add_term s hd.1 hd.2).2 tl).2 := by
  rw [update_terms_cons]

theorem term_present_update_terms_mono (terms : List (String × String)) :
    ∀ (s : TermStore) (k : String), term_present s k = true →
      term_present (update_terms s terms).2 k = true := by
  induction terms with
  | nil => intro s k h; simpa [update_terms] using h
  | cons hd tl ih =>
    intro s k h
    rw [update_terms_snd_cons]
    exact ih _ _ (term_present_add_term_mono _ _ _ _ h)

theorem update_terms_all_present (terms : List (String × String)) :
    ∀ (s : TermStore) (kv : String × String), kv ∈ terms →
      term_present (update_terms s terms).2 kv.1 = true := by
  induction terms with
  | nil => intro s kv h; simp at h
  | cons hd tl ih =>
    intro s kv h
    rw [update_terms_snd_cons]
    rcases List.mem_cons.mp h with h1 | h2
    · subst h1
      exact term_present_update_terms_mono tl _ _
        (term_present_add_term_self s kv.1 kv.2)
    · exact ih _ kv h2

theorem update_terms_noop (terms : List (String × String)) (s : TermStore)
    (h : ∀ kv ∈ terms, term_present s kv.1 = true) :
    update_terms s terms = (0, s) := by
  induction terms generalizing s with
  | nil => simp [update_terms]
  | cons hd tl ih =>
    rw [update_terms_cons]
    have hadd : add_term s hd.1 hd.2 = (false, s) :=
      add_term_of_present s hd.1 hd.2 (h hd (List.mem_cons_self _ _))
    rw [hadd]
    simp [ih s (fun kv hm => h kv (List.mem_cons_of_mem _ hm))]

/-! ## Stage-4 evaluation lemmas -/

theorem stage4_compute (d : Dir) (history : List FinalTrans)
    (reordered : ReorderedInput) (image_name : String)
    (image_path : Option String) (structured : Option StructuredResp)
    (fb : FallbackCall) (now : String)
    (h4 : loadTruthy 4 image_name d = none)
    (hne : reordered.isEmpty = false)
    (htexts : (stage4TextStrings reordered).isEmpty = false) :
    stage4_translate_with_history d history reordered image_name image_path
        structured fb now =
      (some (stage4_ret_dict reordered
          (translate_texts_with_history (stage4TextStrings reordered) structured fb)
          (stage4OcrMetadata d image_name)),
       saveOk 4 image_name
         (stage4_save_dict reordered
           (stage4_ret_dict reordered
             (translate_texts_with_history (stage4TextStrings reordered) structured fb)
             (stage4OcrMetadata d image_name))
           (translate_texts_with_history (stage4TextStrings reordered) structured fb)
           history.length image_path (stage4OcrMetadata d image_name))
         d now) := by
  unfold stage4_translate_with_history
  rw [h4]
  simp only [hne, htexts, Bool.false_eq_true, if_false]

theorem jget_ret_dict_success (reordered : ReorderedInput) (result : TransResult)
    (meta : List ExtractedText) :
    jget (stage4_ret_dict reordered result meta) "success" =
      some (.vbool result.success) := by
  cases reordered with
  | dicts rs =>
    unfold stage4_ret_dict
    rw [jget_dictSet_ne _ _ _ _ (by decide)]
    exact jget_toDict_success result
  | strs ss => exact jget_toDict_success result

theorem jget_ret_dict_translated_dicts (rs : List ReorderedText)
    (result : TransResult) (meta : List ExtractedText) :
    jget (stage4_ret_dict (.dicts rs) result meta) "translated_texts" =
      some (.vfinals (stage4_merge rs result.translated_texts meta)) := by
  unfold stage4_ret_dict
  exact jget_dictSet_self _ _ _

theorem jget_save_dict_success (reordered : ReorderedInput) (retDict : JDict)
    (result : TransResult) (hl : Nat) (ip : Option String)
    (meta : List ExtractedText) :
    jget (stage4_save_dict reordered retDict result hl ip meta) "success" =
      some (.vbool result.success) := by
  simp [stage4_save_dict, jget, List.find?_cons]

theorem jget_ret_dict_terms (reordered : ReorderedInput) (result : TransResult)
    (meta : List ExtractedText) :
    jget (stage4_ret_dict reordered result meta) "new_terminology" =
      some (.vterms result.new_terminology) := by
  cases reordered with
  | dicts rs =>
    unfold stage4_ret_dict
    rw [jget_dictSet_ne _ _ _ _ (by decide)]
    exact jget_toDict_terms result
  | strs ss => exact jget_toDict_terms result

theorem stage1_cached (d : Dir) (image_name : String) (detect : JDict)
    (now : String) (c : JDict) (bs : List (List Int))
    (h : loadTruthy 1 image_name d = some c)
    (hv : jget c "text_boxes" = some (.vbboxes bs)) :
    stage1_detect_text_boxes d image_name detect now = (some bs, d) := by
  unfold stage1_detect_text_boxes
  rw [h]
  simp only [hv]

theorem stage2_cached (d : Dir) (tb : List (List Int)) (image_name : String)
    (ocr : List ExtractedText) (now : String) (c : JDict)
    (es : List ExtractedText)
    (h : loadTruthy 2 image_name d = some c)
    (hv : jget c "extracted_texts" = some (.vexts es)) :
    stage2_ocr_extraction d tb image_name ocr now = (some es, d) := by
  unfold stage2_ocr_extraction
  rw [h]
  simp only [hv]

theorem stage3_cached (d : Dir) (es : List ExtractedText) (image_name : String)
    (ra : Option (List ReorderedText)) (now : String) (c : JDict)
    (rs : List ReorderedText)
    (h : loadTruthy 3 image_name d = some c)
    (hv : jget c "reordered_texts" = some (.vreords rs)) :
    stage3_reorder_text d es image_name ra now = (some rs, d) := by
  unfold stage3_reorder_text
  rw [h]
  simp only [hv]

/-! ## Process-level evaluation lemmas (stages 1-3 cache-resident) -/

theorem process_cached_stage4_fail (st : PipelineState) (o : Oracles)
    (image_name image_path now : String) (c1 : JDict) (bs : List (List Int))
    (c2 : JDict) (es : List ExtractedText) (c3 : JDict)
    (rs : List ReorderedText)
    (hinit : st.initialized = true)
    (h1 : loadTruthy 1 image_name st.dir = some c1)
    (h1v : jget c1 "text_boxes" = some (.vbboxes bs))
    (h1ne : bs.isEmpty = false)
    (h2 : loadTruthy 2 image_name st.dir = some c2)
    (h2v : jget c2 "extracted_texts" = some (.vexts es))
    (h2ne : es.isEmpty = false)
    (h3 : loadTruthy 3 image_name st.dir = some c3)
    (h3v : jget c3 "reordered_texts" = some (.vreords rs))
    (h3ne : rs.isEmpty = false)
    (h4 : loadTruthy 4 image_name st.dir = none)
    (htexts : (stage4TextStrings (.dicts rs)).isEmpty = false)
    (hsucc : (translate_texts_with_history (stage4TextStrings (.dicts rs))
        o.structuredTrans o.fallbackTrans).success = false) :
    process_manga_with_history st o image_name image_path now =
      (.fail "Translation failed",
       { st with
           dir :=
             saveOk 4 image_name
               (stage4_save_dict (.dicts rs)
                 (stage4_ret_dict (.dicts rs)
                   (translate_texts_with_history (stage4TextStrings (.dicts rs))
                     o.structuredTrans o.fallbackTrans)
                   (stage4OcrMetadata st.dir image_name))
                 (translate_texts_with_history (stage4TextStrings (.dicts rs))
                   o.structuredTrans o.fallbackTrans)
                 st.translation_history.length (some image_path)
                 (stage4OcrMetadata st.dir image_name))
               st.dir now }) := by
  unfold process_manga_with_history
  rw [if_neg (by simp [hinit])]
  simp only [stage1_cached st.dir image_name o.detect now c1 bs h1 h1v,
    stage2_cached st.dir bs image_name o.ocr now c2 es h2 h2v,
    stage3_cached st.dir es image_name o.reorder now c3 rs h3 h3v,
    stage4_compute st.dir st.translation_history (.dicts rs) image_name
      (some image_path) o.structuredTrans o.fallbackTrans now h4 (by simp [ReorderedInput.isEmpty, ← List.isEmpty_iff, h3ne]) htexts,
    h1ne, h2ne, h3ne, Bool.false_eq_true, if_false,
    jget_ret_dict_success, hsucc]
  simp [svalTruthy]

theorem process_cached_stage4_ok (st : PipelineState) (o : Oracles)
    (image_name image_path now : String) (c1 : JDict) (bs : List (List Int))
    (c2 : JDict) (es : List ExtractedText) (c3 : JDict)
    (rs : List ReorderedText)
    (hinit : st.initialized = true)
    (h1 : loadTruthy 1 image_name st.dir = some c1)
    (h1v : jget c1 "text_boxes" = some (.vbboxes bs))
    (h1ne : bs.isEmpty = false)
    (h2 : loadTruthy 2 image_name st.dir = some c2)
    (h2v : jget c2 "extracted_texts" = some (.vexts es))
    (h2ne : es.isEmpty = false)
    (h3 : loadTruthy 3 image_name st.dir = some c3)
    (h3v : jget c3 "reordered_texts" = some (.vreords rs))
    (h3ne : rs.isEmpty = false)
    (h4 : loadTruthy 4 image_name st.dir = none)
    (htexts : (stage4TextStrings (.dicts rs)).isEmpty = false)
    (hsucc : (translate_texts_with_history (stage4TextStrings (.dicts rs))
        o.structuredTrans o.fallbackTrans).success = true) :
    process_manga_with_history st o image_name image_path now =
      (.ok { text_boxes_count := bs.length
             extracted_count := es.length
             reordered_count := rs.length
             translated_count :=
               svalLen (jget (stage4_ret_dict (.dicts rs)
                 (translate_texts_with_history (stage4TextStrings (.dicts rs))
                   o.structuredTrans o.fallbackTrans)
                 (stage4OcrMetadata st.dir image_name)) "translated_texts")
             new_terminology_count :=
               (getTermsD (stage4_ret_dict (.dicts rs)
                 (translate_texts_with_history (stage4TextStrings (.dicts rs))
                   o.structuredTrans o.fallbackTrans)
                 (stage4OcrMetadata st.dir image_name))).length
             translated_texts :=
               jget (stage4_ret_dict (.dicts rs)
                 (translate_texts_with_history (stage4TextStrings (.dicts rs))
                   o.structuredTrans o.fallbackTrans)
                 (stage4OcrMetadata st.dir image_name)) "translated_texts" },
       { st with
           dir :=
             saveOk 4 image_name
               (stage4_save_dict (.dicts rs)
                 (stage4_ret_dict (.dicts rs)
                   (translate_texts_with_history (stage4TextStrings (.dicts rs))
                     o.structuredTrans o.fallbackTrans)
                   (stage4OcrMetadata st.dir image_name))
                 (translate_texts_with_history (stage4TextStrings (.dicts rs))
                   o.structuredTrans o.fallbackTrans)
                 st.translation_history.length (some image_path)
                 (stage4OcrMetadata st.dir image_name))
               st.dir now
           termStore :=
             stage5_update_terminology st.termStore
               (getTermsD (stage4_ret_dict (.dicts rs)
                 (translate_texts_with_history (stage4TextStrings (.dicts rs))
                   o.structuredTrans o.fallbackTrans)
                 (stage4OcrMetadata st.dir image_name))) }) := by
  unfold process_manga_with_history
  rw [if_neg (by simp [hinit])]
  simp only [stage1_cached st.dir image_name o.detect now c1 bs h1 h1v,
    stage2_cached st.dir bs image_name o.ocr now c2 es h2 h2v,
    stage3_cached st.dir es image_name o.reorder now c3 rs h3 h3v,
    stage4_compute st.dir st.translation_history (.dicts rs) image_name
      (some image_path) o.structuredTrans o.fallbackTrans now h4
      (by simp [ReorderedInput.isEmpty, ← List.isEmpty_iff, h3ne]) htexts,
    h1ne, h2ne, h3ne, Bool.false_eq_true, if_false,
    jget_ret_dict_success, hsucc]
  simp [svalTruthy]

/-! ## Concrete fixtures -/

/-- Two stage-3 reordered dicts for a two-bubble page. -/
def exR0 : ReorderedText :=
  { original_index := some 0, new_order := some 0, bbox := some [1, 2, 3, 4],
    text := "こん" }

def exR1 : ReorderedText :=
  { original_index := some 1, new_order := some 1, bbox := some [5, 6, 7, 8],
    text := "ばん" }

/-- A single structured translation record. -/
def exT0 : STrans :=
  { original := "こん", translated := "你好", text_direction := "horizontal",
    bubble_type := "pure_white", estimated_font_size := 14 }

/-- A structured response carrying one record (a count of 1 for 2 inputs). -/
def exResp1 : StructuredResp := { translations := [exT0], new_terminology := [] }

def exE0 : ExtractedText :=
  { box_index := 0, bbox := [1, 2, 3, 4], rendered_bbox := [1, 2, 3, 4],
    text := "こん", vertical := false, was_rotated := false }

def exE1 : ExtractedText :=
  { box_index := 1, bbox := [5, 6, 7, 8], rendered_bbox := [5, 6, 7, 8],
    text := "ばん", vertical := true, was_rotated := false }

/-- A results directory holding cache entries for stages 1-3 of image
`img` and no stage-4 entry. -/
def exDirCached : Dir :=
  [("img_stage1_detection.json",
    [("text_boxes", .vbboxes [[1, 2, 3, 4], [5, 6, 7, 8]]), ("stage", .vint 1)]),
   ("img_stage2_ocr.json",
    [("extracted_texts", .vexts [exE0, exE1]), ("stage", .vint 2)]),
   ("img_stage3_reorder.json",
    [("reordered_texts", .vreords [exR0, exR1]), ("stage", .vint 3)])]

/-- A fully initialized orchestrator over `exDirCached`. -/
def exStateOk : PipelineState :=
  pipeline_init ⟨true, true, true, true, true, true, true⟩ ⟨[]⟩ exDirCached

/-- Adapters where the structured translation call returns 1 record. -/
def exOraclesMismatch : Oracles :=
  { detect := [], ocr := [], reorder := none,
    structuredTrans := some exResp1, fallbackTrans := .raises "x" }

/-- Adapters where both translation calls raise. -/
def exOraclesRaise : Oracles :=
  { detect := [], ocr := [], reorder := none,
    structuredTrans := none, fallbackTrans := .raises "boom" }

/-- A 21-entry translation history. -/
def exHist21 : List FinalTrans :=
  (List.range 21).map (fun i =>
    { original_index := some (Int.ofNat i), new_order := some (Int.ofNat i),
      bbox := none, original := toString i, translated := toString i,
      text_direction := "horizontal", bubble_type := "pure_white",
      estimated_font_size := 16 })

/-! ## Claims -/

/-- C7: `add_term` is first-writer-wins: it inserts and returns `true`
when the source term is absent, and returns `false` leaving the existing
mapping unchanged when the source term is present, whatever the new
target. -/
theorem c7_add_term_first_writer_wins (s : TermStore) (jp zh : String) :
    (get_term s jp = none →
      add_term s jp zh = (true, ⟨s.ja_to_zh ++ [(jp, zh)]⟩) ∧
      get_term (add_term s jp zh).2 jp = some zh) ∧
    (∀ zh0, get_term s jp = some zh0 →
      add_term s jp zh = (false, s) ∧
      get_term (add_term s jp zh).2 jp = some zh0) := by
  constructor
  · intro h
    have hfind : s.ja_to_zh.find? (fun kv => kv.1 = jp) = none := by
      unfold get_term at h
      exact Option.map_eq_none'.mp h
    have hany : s.ja_to_zh.any (fun kv => kv.1 = jp) = false := by
      by_contra hc
      have := List.any_eq_true.mp (eq_true_of_ne_false hc)
      rcases this with ⟨kv, hmem, hp⟩
      exact (List.find?_eq_none.mp hfind kv hmem) hp
    have hadd : add_term s jp zh = (true, ⟨s.ja_to_zh ++ [(jp, zh)]⟩) := by
      unfold add_term
      simp [hany]
    refine ⟨hadd, ?_⟩
    rw [hadd]
    unfold get_term
    rw [List.find?_append, hfind]
    simp [List.find?_cons]
  · intro zh0 h
    have hfind : ∃ kv, s.ja_to_zh.find? (fun kv => kv.1 = jp) = some kv ∧
        kv.2 = zh0 := by
      unfold get_term at h
      rcases Option.map_eq_some'.mp h with ⟨kv, hkv, hv⟩
      exact ⟨kv, hkv, hv⟩
    rcases hfind with ⟨kv, hkv, hv⟩
    have hp := List.find?_some hkv
    have hmem : kv ∈ s.ja_to_zh := List.mem_of_find?_eq_some hkv
    have hany : s.ja_to_zh.any (fun kv => kv.1 = jp) = true :=
      List.any_eq_true.mpr ⟨kv, hmem, hp⟩
    have hadd : add_term s jp zh = (false, s) := by
      unfold add_term
      simp [hany]
    refine ⟨hadd, ?_⟩
    rw [hadd]
    exact h

/-- C7 witness: adding 朝日→旭日 then 朝日→晨光 returns `true` then
`false` and the stored value stays 旭日. -/
theorem c7_witness :
    add_term ⟨[]⟩ "朝日" "旭日" = (true, ⟨[("朝日", "旭日")]⟩) ∧
    add_term ⟨[("朝日", "旭日")]⟩ "朝日" "晨光" = (false, ⟨[("朝日", "旭日")]⟩) ∧
    get_term (add_term ⟨[("朝日", "旭日")]⟩ "朝日" "晨光").2 "朝日" = some "旭日" := by
  refine ⟨?_, ?_, ?_⟩
  · exact ((c7_add_term_first_writer_wins ⟨[]⟩ "朝日" "旭日").1 (by decide)).1
  · exact ((c7_add_term_first_writer_wins ⟨[("朝日", "旭日")]⟩ "朝日" "晨光").2
      "旭日" (by decide)).1
  · exact ((c7_add_term_first_writer_wins ⟨[("朝日", "旭日")]⟩ "朝日" "晨光").2
      "旭日" (by decide)).2

/-- C8: when the reorder LLM call always raises,
`reorder_texts_with_image` never raises and returns the identity
fallback: one entry per input whose `new_order` is its 0-based position
and whose `original_index` is the input's `box_index` — for inputs of any
size, 0 and 1 included. -/
theorem c8_reorder_fallback_identity (exts : List ExtractedText) (i : Nat) :
    reorder_texts_with_image exts none = fallback_order exts ∧
    (fallback_order exts).length = exts.length ∧
    (fallback_order exts)[i]? = (exts[i]?).map (fun e =>
      { original_index := some e.box_index, new_order := some (Int.ofNat i),
        bbox := some e.bbox, text := e.text }) := by
  refine ⟨?_, ?_, ?_⟩
  · cases exts <;> rfl
  · simp [fallback_order, List.enum_length]
  · unfold fallback_order
    rw [List.getElem?_map, List.getElem?_enum]
    cases exts[i]? <;> simp

/-- C10: `save_stage_result` on a valid stage mutates the caller's data
dict in place — afterwards it holds a `timestamp` entry with the write
time and a `stage` entry with the stage number, every other key
unchanged — and writes exactly that mutated dict to the stage file. -/
theorem c10_save_stage_result_mutates_data (stage : Nat) (image_name : String)
    (data : JDict) (d : Dir) (now : String) (sn : String)
    (hs : stageNameOf stage = some sn) :
    save_stage_result stage image_name data d now =
      .ok (stageFilename image_name stage sn, savedData stage data now,
        fwrite d (stageFilename image_name stage sn) (savedData stage data now)) ∧
    jget (savedData stage data now) "timestamp" = some (.vstr now) ∧
    jget (savedData stage data now) "stage" = some (.vint stage) ∧
    (∀ k, k ≠ "timestamp" → k ≠ "stage" →
      jget (savedData stage data now) k = jget data k) := by
  refine ⟨?_, ?_, ?_, ?_⟩
  · unfold save_stage_result
    rw [hs]
    rfl
  · unfold savedData
    rw [jget_dictSet_ne _ _ _ _ (by decide)]
    exact jget_dictSet_self _ _ _
  · unfold savedData
    exact jget_dictSet_self _ _ _
  · intro k h1 h2
    exact jget_savedData_ne stage data now k h1 h2

/-- C10 witness: saving stage 4 adds `timestamp` and `stage` and keeps
the original key untouched. -/
theorem c10_witness :
    save_stage_result 4 "img" [("foo", .vint 7)] [] "T0" =
      .ok (stageFilename "img" 4 "translate", savedData 4 [("foo", .vint 7)] "T0",
        fwrite [] (stageFilename "img" 4 "translate")
          (savedData 4 [("foo", .vint 7)] "T0")) ∧
    jget (savedData 4 [("foo", .vint 7)] "T0") "timestamp" = some (.vstr "T0") ∧
    jget (savedData 4 [("foo", .vint 7)] "T0") "stage" = some (.vint 4) ∧
    jget (savedData 4 [("foo", .vint 7)] "T0") "foo" = some (.vint 7) := by
  have h := c10_save_stage_result_mutates_data 4 "img" [("foo", .vint 7)] [] "T0"
    "translate" (by decide)
  exact ⟨h.1, h.2.1, h.2.2.1, h.2.2.2 "foo" (by decide) (by decide)⟩

/-- C3 counterexample: a single translation call that takes the fallback
path surfaces the most recent 20 history entries, not 10 — on a
21-entry history the fallback prompt window has 20 entries. -/
theorem c3_counter_fallback_window_exceeds_ten :
    (recent_history_fallback exHist21).length = 20 ∧
    ¬ (recent_history_fallback exHist21).length ≤ 10 ∧
    (recent_history_enhanced exHist21).length = 10 := by decide

/-- C3 (amended): the batch history update keeps at most 100 entries —
always exactly the most recent ones in order — and a translation call
surfaces the most recent 10 entries in the structured prompt but the
most recent 20 in the fallback prompt. -/
theorem c3_amended_history_cap_and_windows :
    (∀ (h new : List FinalTrans), h.length ≤ 100 →
      (batch_history_step h new).length ≤ 100 ∧
      batch_history_step h new = (h ++ new).drop ((h ++ new).length - 100)) ∧
    (∀ h : List FinalTrans,
      recent_history_enhanced h = h.drop (h.length - 10) ∧
      (recent_history_enhanced h).length ≤ 10) ∧
    (∀ h : List FinalTrans,
      recent_history_fallback h = h.drop (h.length - 20) ∧
      (recent_history_fallback h).length ≤ 20) := by
  refine ⟨?_, ?_, ?_⟩
  · intro h new hcap
    unfold batch_history_step
    by_cases hne : new.isEmpty
    · have hnil : new = [] := List.isEmpty_iff.mp hne
      subst hnil
      rw [if_pos hne]
      refine ⟨hcap, ?_⟩
      rw [List.append_nil, Nat.sub_eq_zero_of_le hcap, List.drop_zero]
    · simp only [hne, Bool.false_eq_true, if_false]
      by_cases hgt : 100 < (h ++ new).length
      · rw [if_pos hgt]
        refine ⟨?_, rfl⟩
        rw [List.length_drop]
        omega
      · rw [if_neg hgt]
        have hle : (h ++ new).length ≤ 100 := Nat.le_of_not_lt hgt
        refine ⟨hle, ?_⟩
        rw [Nat.sub_eq_zero_of_le hle, List.drop_zero]
  · intro h
    unfold recent_history_enhanced
    by_cases hpos : h.length > 0
    · constructor
      · simp [hpos]
      · simp only [hpos, if_true]
        rw [List.length_drop]
        omega
    · have : h = [] := List.length_eq_zero.mp (Nat.eq_zero_of_not_pos hpos)
      subst this
      simp
  · intro h
    unfold recent_history_fallback
    by_cases hemp : h.isEmpty
    · have : h = [] := List.isEmpty_iff.mp hemp
      subst this
      simp
    · by_cases hgt : h.length > 20
      · constructor
        · simp [hemp, hgt]
        · simp only [hemp, hgt, Bool.false_eq_true, if_false, if_true]
          rw [List.length_drop]
          omega
      · have hle : h.length ≤ 20 := Nat.le_of_not_lt hgt
        have h0 : h.length - 20 = 0 := Nat.sub_eq_zero_of_le hle
        simp [hemp, hgt, h0, hle]

/-- C3 witness: one batch-history update at the cap invariant. -/
theorem c3_amended_witness :
    (batch_history_step exHist21 exHist21).length ≤ 100 ∧
    batch_history_step exHist21 exHist21 =
      (exHist21 ++ exHist21).drop ((exHist21 ++ exHist21).length - 100) :=
  c3_amended_history_cap_and_windows.1 exHist21 exHist21 (by decide)

/-- The component-failure pattern: the detector constructor raises. -/
def exInitFail : InitOutcomes :=
  { detector_ok := false, ocr_ok := true, terminology_ok := true,
    stage_manager_ok := true, gemini_ok := true, reorder_ok := true,
    translator_ok := true }

/-- C4 counterexample: with a failing detector the constructor completes
and returns a partially-initialized orchestrator (`initialized = false`)
instead of propagating the failure; the unusability only surfaces on a
later processing call, which returns Python `None`. -/
theorem c4_counter_construction_swallows_failure :
    pipeline_init exInitFail ⟨[]⟩ [] =
      { initialized := false, translation_history := [], termStore := ⟨[]⟩,
        dir := [] } ∧
    process_manga_with_history (pipeline_init exInitFail ⟨[]⟩ [])
        exOraclesMismatch "img" "img.png" "T0" =
      (.noneResult, pipeline_init exInitFail ⟨[]⟩ []) := by decide

/-- C4 (amended): the constructor catches any component-initialization
failure and always returns a constructed orchestrator whose
`initialized` flag records whether every component came up; processing
entry points check the flag and return a failure value without doing any
work, so an initialization failure is discovered lazily at the first
call, not at construction. -/
theorem c4_amended_lazy_initialization_guard :
    (∀ (o : InitOutcomes) (store : TermStore) (d : Dir),
      pipeline_init o store d =
        { initialized := o.detector_ok && o.ocr_ok && o.terminology_ok &&
            o.stage_manager_ok && o.gemini_ok && o.reorder_ok && o.translator_ok
          translation_history := []
          termStore := store
          dir := d }) ∧
    (∀ (st : PipelineState) (o : Oracles) (img path now : String),
      st.initialized = false →
      process_manga_with_history st o img path now = (.noneResult, st)) := by
  constructor
  · intro o store d
    rfl
  · intro st o img path now h
    unfold process_manga_with_history
    rw [if_pos (by simp [h])]

/-- C4 witness: the guard at a concrete uninitialized orchestrator. -/
theorem c4_amended_witness :
    process_manga_with_history (pipeline_init exInitFail ⟨[]⟩ [])
        exOraclesRaise "img2" "img2.png" "T1" =
      (.noneResult, pipeline_init exInitFail ⟨[]⟩ []) :=
  c4_amended_lazy_initialization_guard.2 (pipeline_init exInitFail ⟨[]⟩ [])
    exOraclesRaise "img2" "img2.png" "T1" (by decide)

/-- A results directory holding exactly the five stage files of `img`. -/
def exDirFive : Dir :=
  [("img_stage1_detection.json", [("stage", .vint 1)]),
   ("img_stage2_ocr.json", [("stage", .vint 2)]),
   ("img_stage3_reorder.json", [("stage", .vint 3)]),
   ("img_stage4_translate.json", [("stage", .vint 4)]),
   ("img_stage5_update.json", [("stage", .vint 5)])]

/-- C5: for a results directory containing exactly the five stage files
of one image, the global sweep does remove all five files, but it
reports 25 — `clear_all_stages` runs once per stage file encountered and
counts every stage whose `clear_stage_result` returned `True`, which
includes the stages whose file no longer exists (`clear_stage_result`
returns `True` for a missing file), so each removed file is counted five
times instead of once.  The per-image clear of the same directory
reports 5. -/
theorem c5_global_clear_overcounts :
    exDirFive.length = 5 ∧
    clear_cache none exDirFive = (25, []) ∧
    clear_cache (some "img") exDirFive = (5, []) := by decide

theorem ne_nil_of_isEmpty_false {α : Type} (l : List α) (h : l.isEmpty = false) :
    l ≠ [] := by
  intro hc
  subst hc
  simp at h

/-- The merged record the truncating stage-4 run produces for `exR0`. -/
def exF0 : FinalTrans :=
  { original_index := some 0, new_order := some 0, bbox := some [1, 2, 3, 4],
    original := "こん", translated := "你好", text_direction := "horizontal",
    bubble_type := "pure_white", estimated_font_size := 14 }

/-- C1 counterexample: with stages 1-3 cache-resident and a structured
translation call returning 1 record for 2 input texts, the stage-4
result reports success and the orchestrator reports a successful image
with the merged output silently truncated to 1 record — not the claimed
`success = false` and failure report. -/
theorem c1_counter_mismatch_reported_as_success :
    (process_manga_with_history exStateOk exOraclesMismatch "img" "img.png"
        "T0").1 =
      .ok { text_boxes_count := 2, extracted_count := 2, reordered_count := 2,
            translated_count := 1, new_terminology_count := 0,
            translated_texts := some (.vfinals [exF0]) } ∧
    svalTruthy (jget ((stage4_translate_with_history exDirCached []
        (.dicts [exR0, exR1]) "img" (some "img.png") (some exResp1)
        (.raises "x") "T0").1.getD []) "success") = true := by decide

/-- C1 (amended): the structured translation path performs no count
check — whenever the structured call returns records, the stage-4 result
reports `success = true` and its merged `translated_texts` are truncated
to `min(inputs, records)`; output count is forced to equal the input
count only on the fallback paths (the response parse pads to the input
count with `success = true`, and the exception path echoes each input
with `success = false`).  No path raises. -/
theorem c1_amended_structured_path_unchecked (d : Dir)
    (hist : List FinalTrans) (rs : List ReorderedText) (img : String)
    (path : Option String) (resp : StructuredResp) (fb : FallbackCall)
    (now : String) (h4 : loadTruthy 4 img d = none) (hne : rs ≠ [])
    (htext : ∀ r ∈ rs, r.text ≠ "") :
    ∃ ret : JDict,
      (stage4_translate_with_history d hist (.dicts rs) img path (some resp)
          fb now).1 = some ret ∧
      jget ret "success" = some (.vbool true) ∧
      svalLen (jget ret "translated_texts") =
        min rs.length resp.translations.length ∧
      (∀ msg,
        (translate_texts_with_history (stage4TextStrings (.dicts rs)) none
            (.raises msg)).success = false ∧
        (translate_texts_with_history (stage4TextStrings (.dicts rs)) none
            (.raises msg)).translated_texts.length = rs.length) ∧
      (∀ parsed lines,
        (translate_texts_with_history (stage4TextStrings (.dicts rs)) none
            (.responds parsed lines)).success = true ∧
        (translate_texts_with_history (stage4TextStrings (.dicts rs)) none
            (.responds parsed lines)).translated_texts.length = rs.length) := by
  have hfil : rs.filter (fun r => r.text ≠ "") = rs := by
    rw [List.filter_eq_self]
    intro a ha
    simpa using htext a ha
  have hlen : (stage4TextStrings (.dicts rs)).length = rs.length := by
    show ((rs.filter (fun r => r.text ≠ "")).map (fun r => r.text)).length =
      rs.length
    rw [hfil, List.length_map]
  have htne : stage4TextStrings (.dicts rs) ≠ [] := by
    intro hc
    rw [hc] at hlen
    exact hne (List.length_eq_zero.mp hlen.symm)
  have hisE : (stage4TextStrings (.dicts rs)).isEmpty = false := by
    rw [List.isEmpty_eq_false]
    exact htne
  have hrsE : (ReorderedInput.dicts rs).isEmpty = false := by
    show rs.isEmpty = false
    rw [List.isEmpty_eq_false]
    exact hne
  have hc := stage4_compute d hist (.dicts rs) img path (some resp) fb now h4
    hrsE hisE
  refine ⟨_, by rw [hc], ?_, ?_, ?_, ?_⟩
  · rw [jget_ret_dict_success, translate_structured _ _ _ htne]
  · rw [jget_ret_dict_translated_dicts]
    show (stage4_merge rs _ _).length = _
    rw [stage4_merge_length, translate_structured _ _ _ htne]
    show min rs.length (resp.translations.map TransItem.full).length = _
    rw [List.length_map]
  · intro msg
    rw [translate_raises _ _ htne]
    exact ⟨rfl, by
      show (create_fallback_translations _).length = _
      rw [create_fallback_translations_length, hlen]⟩
  · intro parsed lines
    rcases translate_responds (stage4TextStrings (.dicts rs)) parsed lines htne
      with ⟨hsu, hle⟩
    exact ⟨hsu, by rw [hle, hlen]⟩

/-- C1 witness: the amended behaviour at a concrete two-input,
one-record instance. -/
theorem c1_amended_witness :
    ∃ ret : JDict,
      (stage4_translate_with_history exDirCached [] (.dicts [exR0, exR1])
          "img" (some "img2.png") (some exResp1) (.raises "z") "T2").1 =
        some ret ∧
      jget ret "success" = some (.vbool true) ∧
      svalLen (jget ret "translated_texts") =
        min [exR0, exR1].length exResp1.translations.length ∧
      (∀ msg,
        (translate_texts_with_history (stage4TextStrings (.dicts [exR0, exR1]))
            none (.raises msg)).success = false ∧
        (translate_texts_with_history (stage4TextStrings (.dicts [exR0, exR1]))
            none (.raises msg)).translated_texts.length = [exR0, exR1].length) ∧
      (∀ parsed lines,
        (translate_texts_with_history (stage4TextStrings (.dicts [exR0, exR1]))
            none (.responds parsed lines)).success = true ∧
        (translate_texts_with_history (stage4TextStrings (.dicts [exR0, exR1]))
            none (.responds parsed lines)).translated_texts.length =
          [exR0, exR1].length) :=
  c1_amended_structured_path_unchecked exDirCached [] [exR0, exR1] "img"
    (some "img2.png") exResp1 (.raises "z") "T2" (by decide) (by decide)
    (by decide)

/-- C2 counterexample: with no stage-4 cache entry present, a
translation where both adapter calls raise makes the image fail — but a
stage-4 cache entry IS written, recording `success = false`; the cache
state does not stay unchanged as claimed. -/
theorem c2_counter_failed_translation_writes_cache :
    (process_manga_with_history exStateOk exOraclesRaise "img" "img.png"
        "T0").1 = .fail "Translation failed" ∧
    loadOk 4 "img" exStateOk.dir = none ∧
    ((loadOk 4 "img" (process_manga_with_history exStateOk exOraclesRaise
        "img" "img.png" "T0").2.dir).map (fun c => jget c "success")) =
      some (some (.vbool false)) := by decide

/-- C2 (amended): when the translation adapter raises (both structured
and fallback calls), the translator returns `success = false`, the image
is marked as an image-level failure — but the stage-4 cache entry IS
written, persisting the failed result with `success = false`. -/
theorem c2_amended_failure_is_cached (st : PipelineState) (o : Oracles)
    (image_name image_path now : String) (c1 : JDict) (bs : List (List Int))
    (c2 : JDict) (es : List ExtractedText) (c3 : JDict)
    (rs : List ReorderedText) (msg : String)
    (hinit : st.initialized = true)
    (h1 : loadTruthy 1 image_name st.dir = some c1)
    (h1v : jget c1 "text_boxes" = some (.vbboxes bs))
    (h1ne : bs.isEmpty = false)
    (h2 : loadTruthy 2 image_name st.dir = some c2)
    (h2v : jget c2 "extracted_texts" = some (.vexts es))
    (h2ne : es.isEmpty = false)
    (h3 : loadTruthy 3 image_name st.dir = some c3)
    (h3v : jget c3 "reordered_texts" = some (.vreords rs))
    (h3ne : rs.isEmpty = false)
    (h4 : loadTruthy 4 image_name st.dir = none)
    (htexts : (stage4TextStrings (.dicts rs)).isEmpty = false)
    (hso : o.structuredTrans = none)
    (hfo : o.fallbackTrans = .raises msg) :
    (process_manga_with_history st o image_name image_path now).1 =
      .fail "Translation failed" ∧
    ∃ entry : JDict,
      loadOk 4 image_name
          (process_manga_with_history st o image_name image_path now).2.dir =
        some entry ∧
      jget entry "success" = some (.vbool false) := by
  have htne : stage4TextStrings (.dicts rs) ≠ [] :=
    ne_nil_of_isEmpty_false _ htexts
  have hsucc : (translate_texts_with_history (stage4TextStrings (.dicts rs))
      o.structuredTrans o.fallbackTrans).success = false := by
    rw [hso, hfo, translate_raises _ _ htne]
  have hp := process_cached_stage4_fail st o image_name image_path now c1 bs
    c2 es c3 rs hinit h1 h1v h1ne h2 h2v h2ne h3 h3v h3ne h4 htexts hsucc
  refine ⟨by rw [hp], ?_⟩
  rw [hp]
  refine ⟨_, loadOk_saveOk 4 image_name _ st.dir now "translate" (by decide), ?_⟩
  rw [jget_savedData_ne 4 _ now "success" (by decide) (by decide),
    jget_save_dict_success, hsucc]

/-- C2 witness: the amended behaviour at the concrete adapter-exception
instance. -/
theorem c2_amended_witness :
    (process_manga_with_history exStateOk exOraclesRaise "img" "img.png"
        "T3").1 = .fail "Translation failed" ∧
    ∃ entry : JDict,
      loadOk 4 "img"
          (process_manga_with_history exStateOk exOraclesRaise "img" "img.png"
            "T3").2.dir = some entry ∧
      jget entry "success" = some (.vbool false) :=
  c2_amended_failure_is_cached exStateOk exOraclesRaise "img" "img.png" "T3"
    [("text_boxes", .vbboxes [[1, 2, 3, 4], [5, 6, 7, 8]]), ("stage", .vint 1)]
    [[1, 2, 3, 4], [5, 6, 7, 8]]
    [("extracted_texts", .vexts [exE0, exE1]), ("stage", .vint 2)]
    [exE0, exE1]
    [("reordered_texts", .vreords [exR0, exR1]), ("stage", .vint 3)]
    [exR0, exR1] "boom" (by decide) (by decide) (by decide) (by decide)
    (by decide) (by decide) (by decide) (by decide) (by decide) (by decide)
    (by decide) (by decide) (by decide) (by decide)

/-- C9: in a stage-4 run over dict-shaped reordered texts, the i-th
merged record pairs the i-th reordered dict with the i-th translated
record, and its `text_direction` is decided solely by the `vertical`
flag of the stage-2 cached extraction entry joined through
`original_index` (`vertical` when the looked-up flag is true, else
`horizontal`) — not by the translator's own direction field. -/
theorem c9_vertical_flag_from_stage2 (d : Dir) (hist : List FinalTrans)
    (rs : List ReorderedText) (img : String) (path : Option String)
    (structured : Option StructuredResp) (fb : FallbackCall) (now : String)
    (exts : List ExtractedText) (i : Nat) (r : ReorderedText) (t : TransItem)
    (h4 : loadTruthy 4 img d = none)
    (hmeta : stage4OcrMetadata d img = exts)
    (hne : rs ≠ []) (htext : ∀ r ∈ rs, r.text ≠ "")
    (hr : rs[i]? = some r)
    (ht : (translate_texts_with_history (stage4TextStrings (.dicts rs))
        structured fb).translated_texts[i]? = some t) :
    ∃ (ret : JDict) (finals : List FinalTrans),
      (stage4_translate_with_history d hist (.dicts rs) img path structured
          fb now).1 = some ret ∧
      jget ret "translated_texts" = some (.vfinals finals) ∧
      finals[i]? = some
        { original_index := r.original_index
          new_order := r.new_order
          bbox := r.bbox
          original := t.original
          translated := t.translated
          text_direction :=
            if ocr_vertical exts r.original_index then "vertical"
            else "horizontal"
          bubble_type := t.bubbleTypeD
          estimated_font_size := t.fontSizeD } := by
  have hfil : rs.filter (fun r => r.text ≠ "") = rs := by
    rw [List.filter_eq_self]
    intro a ha
    simpa using htext a ha
  have hlen : (stage4TextStrings (.dicts rs)).length = rs.length := by
    show ((rs.filter (fun r => r.text ≠ "")).map (fun r => r.text)).length =
      rs.length
    rw [hfil, List.length_map]
  have htne : stage4TextStrings (.dicts rs) ≠ [] := by
    intro hc
    rw [hc] at hlen
    exact hne (List.length_eq_zero.mp hlen.symm)
  have hisE : (stage4TextStrings (.dicts rs)).isEmpty = false := by
    rw [List.isEmpty_eq_false]
    exact htne
  have hrsE : (ReorderedInput.dicts rs).isEmpty = false := by
    show rs.isEmpty = false
    rw [List.isEmpty_eq_false]
    exact hne
  have hc := stage4_compute d hist (.dicts rs) img path structured fb now h4
    hrsE hisE
  refine ⟨_, _, by rw [hc], jget_ret_dict_translated_dicts _ _ _, ?_⟩
  rw [hmeta, stage4_merge_eq_zipWith, zipWith_getElem?, hr, ht]
  rfl

/-- A stage-2 entry whose box 3 is vertical. -/
def exE3 : ExtractedText :=
  { box_index := 3, bbox := [9, 9, 9, 9], rendered_bbox := [9, 9, 9, 9],
    text := "やあ", vertical := true, was_rotated := false }

/-- A directory caching that stage-2 entry for image `imgv`. -/
def exDirC9 : Dir :=
  [("imgv_stage2_ocr.json", [("extracted_texts", .vexts [exE3])])]

/-- A stage-3 record mapping `original_index = 3` to `new_order = 0`. -/
def exRv : ReorderedText :=
  { original_index := some 3, new_order := some 0, bbox := some [9, 9, 9, 9],
    text := "やあ" }

/-- A translation record whose own direction field says horizontal. -/
def exTv : STrans :=
  { original := "やあ", translated := "呀", text_direction := "horizontal",
    bubble_type := "pure_white", estimated_font_size := 12 }

/-- C9 witness: stage-2 `vertical = true` at `box_index = 3` joined onto
the stage-3 record `original_index = 3, new_order = 0` puts a vertical
record at position 0, even though the translator said horizontal. -/
theorem c9_witness :
    ∃ (ret : JDict) (finals : List FinalTrans),
      (stage4_translate_with_history exDirC9 [] (.dicts [exRv]) "imgv"
          (some "imgv.png") (some ⟨[exTv], []⟩) (.raises "x") "T0").1 =
        some ret ∧
      jget ret "translated_texts" = some (.vfinals finals) ∧
      finals[0]? = some
        { original_index := exRv.original_index
          new_order := exRv.new_order
          bbox := exRv.bbox
          original := (TransItem.full exTv).original
          translated := (TransItem.full exTv).translated
          text_direction :=
            if ocr_vertical [exE3] exRv.original_index then "vertical"
            else "horizontal"
          bubble_type := (TransItem.full exTv).bubbleTypeD
          estimated_font_size := (TransItem.full exTv).fontSizeD } :=
  c9_vertical_flag_from_stage2 exDirC9 [] [exRv] "imgv" (some "imgv.png")
    (some ⟨[exTv], []⟩) (.raises "x") "T0" [exE3] 0 exRv (.full exTv)
    (by decide) (by decide) (by decide) (by decide) (by decide) (by decide)

theorem jget_toDict_total_texts (r : TransResult) :
    jget r.toDict "total_texts" = none := by
  cases herr : r.error <;>
    simp [TransResult.toDict, jget, List.find?_cons, List.find?_append, herr]

theorem jget_ret_dict_total_texts (reordered : ReorderedInput)
    (result : TransResult) (meta : List ExtractedText) :
    jget (stage4_ret_dict reordered result meta) "total_texts" = none := by
  cases reordered with
  | dicts rs =>
    unfold stage4_ret_dict
    rw [jget_dictSet_ne _ _ _ _ (by decide)]
    exact jget_toDict_total_texts result
  | strs ss => exact jget_toDict_total_texts result

theorem jget_save_dict_total_texts (reordered : ReorderedInput)
    (retDict : JDict) (result : TransResult) (hl : Nat) (ip : Option String)
    (meta : List ExtractedText) :
    jget (stage4_save_dict reordered retDict result hl ip meta) "total_texts" =
      some (.vint (Int.ofNat reordered.length)) := by
  simp [stage4_save_dict, jget, List.find?_cons]

theorem jget_save_dict_translated (reordered : ReorderedInput)
    (retDict : JDict) (result : TransResult) (hl : Nat) (ip : Option String)
    (meta : List ExtractedText) :
    jget (stage4_save_dict reordered retDict result hl ip meta)
        "translated_texts" =
      some ((jget retDict "translated_texts").getD (.vtransItems [])) := by
  simp [stage4_save_dict, jget, List.find?_cons]

/-- C6 counterexample: running stage 4 twice (no clear in between) on a
normal successful translation, the second call returns the persisted
summary record, which is not byte-identical to the first call's return —
the dicts differ (different key sets), though their `translated_texts`
payloads agree. -/
theorem c6_counter_stage4_second_return_not_identical :
    (stage4_translate_with_history
        (stage4_translate_with_history exDirCached [] (.dicts [exR0, exR1])
          "img" (some "img.png") (some exResp1) (.raises "x") "T0").2
        [] (.dicts [exR0, exR1]) "img" (some "img.png") (some exResp1)
        (.raises "x") "T1").1 ≠
      (stage4_translate_with_history exDirCached [] (.dicts [exR0, exR1])
        "img" (some "img.png") (some exResp1) (.raises "x") "T0").1 ∧
    jget ((stage4_translate_with_history
        (stage4_translate_with_history exDirCached [] (.dicts [exR0, exR1])
          "img" (some "img.png") (some exResp1) (.raises "x") "T0").2
        [] (.dicts [exR0, exR1]) "img" (some "img.png") (some exResp1)
        (.raises "x") "T1").1.getD []) "translated_texts" =
      jget ((stage4_translate_with_history exDirCached [] (.dicts [exR0, exR1])
        "img" (some "img.png") (some exResp1) (.raises "x")
        "T0").1.getD []) "translated_texts" := by decide

/-- C6 (amended): with the cache empty for the image, a stage's second
invocation consults only the cache — it returns the same data for any
adapter outcome, performing the expensive computation exactly once.  For
stages 1, 2 and 3 the second call returns the very payload the first
call returned; for stage 4 the second call returns the persisted summary
record, which carries the same `translated_texts` but is not
byte-identical to the first call's return (different key sets).  Stage 5
is uncached but its second terminology update is a no-op on the store. -/
theorem c6_amended_compute_once_second_return_shape :
    (∀ (d : Dir) (img : String) (detect : JDict) (bs : List (List Int))
        (now : String),
      loadTruthy 1 img d = none →
      jget detect "text_boxes" = some (.vbboxes bs) →
      stage1_detect_text_boxes d img detect now =
        (some bs, saveOk 1 img detect d now) ∧
      ∀ (detect2 : JDict) (now2 : String),
        stage1_detect_text_boxes (saveOk 1 img detect d now) img detect2 now2 =
          (some bs, saveOk 1 img detect d now)) ∧
    (∀ (d : Dir) (img : String) (tb : List (List Int))
        (ocr : List ExtractedText) (now : String),
      loadTruthy 2 img d = none →
      stage2_ocr_extraction d tb img ocr now =
        (some ocr, saveOk 2 img (stage2_save_dict tb ocr) d now) ∧
      ∀ (tb2 : List (List Int)) (ocr2 : List ExtractedText) (now2 : String),
        stage2_ocr_extraction (saveOk 2 img (stage2_save_dict tb ocr) d now)
            tb2 img ocr2 now2 =
          (some ocr, saveOk 2 img (stage2_save_dict tb ocr) d now)) ∧
    (∀ (d : Dir) (img : String) (es : List ExtractedText)
        (ra : Option (List ReorderedText)) (now : String),
      loadTruthy 3 img d = none → es.isEmpty = false →
      stage3_reorder_text d es img ra now =
        (some (reorder_texts_with_image es ra),
          saveOk 3 img (stage3_save_dict es (reorder_texts_with_image es ra))
            d now) ∧
      ∀ (es2 : List ExtractedText) (ra2 : Option (List ReorderedText))
          (now2 : String),
        stage3_reorder_text
            (saveOk 3 img (stage3_save_dict es (reorder_texts_with_image es ra))
              d now) es2 img ra2 now2 =
          (some (reorder_texts_with_image es ra),
            saveOk 3 img (stage3_save_dict es (reorder_texts_with_image es ra))
              d now)) ∧
    (∀ (d : Dir) (hist : List FinalTrans) (rs : List ReorderedText)
        (img : String) (path : Option String)
        (structured : Option StructuredResp) (fb : FallbackCall) (now : String),
      loadTruthy 4 img d = none → rs ≠ [] → (∀ r ∈ rs, r.text ≠ "") →
      ∀ (hist2 : List FinalTrans) (structured2 : Option StructuredResp)
          (fb2 : FallbackCall) (now2 : String),
        (stage4_translate_with_history
            (stage4_translate_with_history d hist (.dicts rs) img path
              structured fb now).2
            hist2 (.dicts rs) img path structured2 fb2 now2).2 =
          (stage4_translate_with_history d hist (.dicts rs) img path
            structured fb now).2 ∧
        (stage4_translate_with_history
            (stage4_translate_with_history d hist (.dicts rs) img path
              structured fb now).2
            hist2 (.dicts rs) img path structured2 fb2 now2).1 =
          loadOk 4 img (stage4_translate_with_history d hist (.dicts rs) img
            path structured fb now).2 ∧
        (stage4_translate_with_history
            (stage4_translate_with_history d hist (.dicts rs) img path
              structured fb now).2
            hist2 (.dicts rs) img path structured2 fb2 now2).1 ≠
          (stage4_translate_with_history d hist (.dicts rs) img path
            structured fb now).1) ∧
    (∀ (store : TermStore) (terms : List (String × String)),
      stage5_update_terminology (stage5_update_terminology store terms) terms =
        stage5_update_terminology store terms) := by
  refine ⟨?_, ?_, ?_, ?_, ?_⟩
  · intro d img detect bs now h1 hv
    have hfirst : stage1_detect_text_boxes d img detect now =
        (some bs, saveOk 1 img detect d now) := by
      unfold stage1_detect_text_boxes
      rw [h1]
      simp only [hv]
    refine ⟨hfirst, ?_⟩
    intro detect2 now2
    have hl : loadTruthy 1 img (saveOk 1 img detect d now) =
        some (savedData 1 detect now) :=
      loadTruthy_saveOk 1 img detect d now "detection" (by decide)
    have hj : jget (savedData 1 detect now) "text_boxes" =
        some (.vbboxes bs) := by
      rw [jget_savedData_ne 1 detect now "text_boxes" (by decide) (by decide)]
      exact hv
    unfold stage1_detect_text_boxes
    rw [hl]
    simp only [hj]
  · intro d img tb ocr now h2
    have hfirst : stage2_ocr_extraction d tb img ocr now =
        (some ocr, saveOk 2 img (stage2_save_dict tb ocr) d now) := by
      unfold stage2_ocr_extraction
      rw [h2]
    refine ⟨hfirst, ?_⟩
    intro tb2 ocr2 now2
    have hl : loadTruthy 2 img (saveOk 2 img (stage2_save_dict tb ocr) d now) =
        some (savedData 2 (stage2_save_dict tb ocr) now) :=
      loadTruthy_saveOk 2 img (stage2_save_dict tb ocr) d now "ocr" (by decide)
    have hj : jget (savedData 2 (stage2_save_dict tb ocr) now)
        "extracted_texts" = some (.vexts ocr) := by
      rw [jget_savedData_ne 2 (stage2_save_dict tb ocr) now "extracted_texts"
        (by decide) (by decide)]
      simp [stage2_save_dict, jget, List.find?_cons]
    unfold stage2_ocr_extraction
    rw [hl]
    simp only [hj]
  · intro d img es ra now h3 hese
    have hfirst : stage3_reorder_text d es img ra now =
        (some (reorder_texts_with_image es ra),
          saveOk 3 img (stage3_save_dict es (reorder_texts_with_image es ra))
            d now) := by
      unfold stage3_reorder_text
      rw [h3]
      simp only [hese, Bool.false_eq_true, if_false]
    refine ⟨hfirst, ?_⟩
    intro es2 ra2 now2
    have hl : loadTruthy 3 img
        (saveOk 3 img (stage3_save_dict es (reorder_texts_with_image es ra))
          d now) =
        some (savedData 3
          (stage3_save_dict es (reorder_texts_with_image es ra)) now) :=
      loadTruthy_saveOk 3 img _ d now "reorder" (by decide)
    have hj : jget (savedData 3
        (stage3_save_dict es (reorder_texts_with_image es ra)) now)
        "reordered_texts" = some (.vreords (reorder_texts_with_image es ra)) := by
      rw [jget_savedData_ne 3 _ now "reordered_texts" (by decide) (by decide)]
      simp [stage3_save_dict, jget, List.find?_cons]
    unfold stage3_reorder_text
    rw [hl]
    simp only [hj]
  · intro d hist rs img path structured fb now h4 hne htext hist2 structured2
      fb2 now2
    have hfil : rs.filter (fun r => r.text ≠ "") = rs := by
      rw [List.filter_eq_self]
      intro a ha
      simpa using htext a ha
    have hlen : (stage4TextStrings (.dicts rs)).length = rs.length := by
      show ((rs.filter (fun r => r.text ≠ "")).map (fun r => r.text)).length =
        rs.length
      rw [hfil, List.length_map]
    have htne : stage4TextStrings (.dicts rs) ≠ [] := by
      intro hc
      rw [hc] at hlen
      exact hne (List.length_eq_zero.mp hlen.symm)
    have hisE : (stage4TextStrings (.dicts rs)).isEmpty = false := by
      rw [List.isEmpty_eq_false]
      exact htne
    have hrsE : (ReorderedInput.dicts rs).isEmpty = false := by
      show rs.isEmpty = false
      rw [List.isEmpty_eq_false]
      exact hne
    have hc := stage4_compute d hist (.dicts rs) img path structured fb now h4
      hrsE hisE
    rw [hc]
    have hload : loadTruthy 4 img (saveOk 4 img
        (stage4_save_dict (.dicts rs)
          (stage4_ret_dict (.dicts rs)
            (translate_texts_with_history (stage4TextStrings (.dicts rs))
              structured fb) (stage4OcrMetadata d img))
          (translate_texts_with_history (stage4TextStrings (.dicts rs))
            structured fb) hist.length path (stage4OcrMetadata d img))
        d now) =
        some (savedData 4
          (stage4_save_dict (.dicts rs)
            (stage4_ret_dict (.dicts rs)
              (translate_texts_with_history (stage4TextStrings (.dicts rs))
                structured fb) (stage4OcrMetadata d img))
            (translate_texts_with_history (stage4TextStrings (.dicts rs))
              structured fb) hist.length path (stage4OcrMetadata d img)) now) :=
      loadTruthy_saveOk 4 img _ d now "translate" (by decide)
    have hjt : jget (savedData 4
        (stage4_save_dict (.dicts rs)
          (stage4_ret_dict (.dicts rs)
            (translate_texts_with_history (stage4TextStrings (.dicts rs))
              structured fb) (stage4OcrMetadata d img))
          (translate_texts_with_history (stage4TextStrings (.dicts rs))
            structured fb) hist.length path (stage4OcrMetadata d img)) now)
        "translated_texts" =
        some ((jget (stage4_ret_dict (.dicts rs)
          (translate_texts_with_history (stage4TextStrings (.dicts rs))
            structured fb) (stage4OcrMetadata d img))
          "translated_texts").getD (.vtransItems [])) := by
      rw [jget_savedData_ne 4 _ now "translated_texts" (by decide) (by decide)]
      exact jget_save_dict_translated _ _ _ _ _ _
    have hsecond : stage4_translate_with_history
        (saveOk 4 img
          (stage4_save_dict (.dicts rs)
            (stage4_ret_dict (.dicts rs)
              (translate_texts_with_history (stage4TextStrings (.dicts rs))
                structured fb) (stage4OcrMetadata d img))
            (translate_texts_with_history (stage4TextStrings (.dicts rs))
              structured fb) hist.length path (stage4OcrMetadata d img))
          d now)
        hist2 (.dicts rs) img path structured2 fb2 now2 =
        (some (savedData 4
          (stage4_save_dict (.dicts rs)
            (stage4_ret_dict (.dicts rs)
              (translate_texts_with_history (stage4TextStrings (.dicts rs))
                structured fb) (stage4OcrMetadata d img))
            (translate_texts_with_history (stage4TextStrings (.dicts rs))
              structured fb) hist.length path (stage4OcrMetadata d img)) now),
         saveOk 4 img
          (stage4_save_dict (.dicts rs)
            (stage4_ret_dict (.dicts rs)
              (translate_texts_with_history (stage4TextStrings (.dicts rs))
                structured fb) (stage4OcrMetadata d img))
            (translate_texts_with_history (stage4TextStrings (.dicts rs))
              structured fb) hist.length path (stage4OcrMetadata d img))
          d now) := by
      unfold stage4_translate_with_history
      rw [hload]
      simp only [hjt]
    refine ⟨by rw [hsecond], ?_, ?_⟩
    · rw [hsecond]
      show some _ = loadOk 4 img _
      rw [loadOk_saveOk 4 img _ d now "translate" (by decide)]
    · rw [hsecond]
      show some _ ≠ some _
      intro heq
      have h5 : jget (savedData 4
          (stage4_save_dict (.dicts rs)
            (stage4_ret_dict (.dicts rs)
              (translate_texts_with_history (stage4TextStrings (.dicts rs))
                structured fb) (stage4OcrMetadata d img))
            (translate_texts_with_history (stage4TextStrings (.dicts rs))
              structured fb) hist.length path (stage4OcrMetadata d img)) now)
          "total_texts" =
          some (.vint (Int.ofNat (ReorderedInput.dicts rs).length)) := by
        rw [jget_savedData_ne 4 _ now "total_texts" (by decide) (by decide)]
        exact jget_save_dict_total_texts _ _ _ _ _ _
      have h6 := jget_ret_dict_total_texts (.dicts rs)
        (translate_texts_with_history (stage4TextStrings (.dicts rs))
          structured fb) (stage4OcrMetadata d img)
      rw [Option.some_inj.mp heq, h6] at h5
      exact Option.noConfusion h5
  · intro store terms
    by_cases h : terms.isEmpty
    · unfold stage5_update_terminology
      simp [h]
    · unfold stage5_update_terminology
      simp only [h, Bool.false_eq_true, if_false]
      rw [update_terms_noop terms _
        (fun kv hm => update_terms_all_present terms store kv hm)]

/-- C6 witness: the amended behaviour at concrete double runs of stages
1, 2, 3 and 4. -/
theorem c6_amended_witness :
    (stage1_detect_text_boxes [] "w"
        [("text_boxes", .vbboxes [[1, 2, 3, 4]])] "T0" =
      (some [[1, 2, 3, 4]],
        saveOk 1 "w" [("text_boxes", .vbboxes [[1, 2, 3, 4]])] [] "T0")) ∧
    (stage1_detect_text_boxes
        (saveOk 1 "w" [("text_boxes", .vbboxes [[1, 2, 3, 4]])] [] "T0") "w"
        [] "T9" =
      (some [[1, 2, 3, 4]],
        saveOk 1 "w" [("text_boxes", .vbboxes [[1, 2, 3, 4]])] [] "T0")) ∧
    (stage2_ocr_extraction
        (saveOk 2 "w" (stage2_save_dict [[1, 2, 3, 4]] [exE0]) [] "T0")
        [] "w" [] "T9" =
      (some [exE0],
        saveOk 2 "w" (stage2_save_dict [[1, 2, 3, 4]] [exE0]) [] "T0")) ∧
    (stage3_reorder_text
        (saveOk 3 "w"
          (stage3_save_dict [exE0] (reorder_texts_with_image [exE0] none))
          [] "T0")
        [] "w" none "T9" =
      (some (reorder_texts_with_image [exE0] none),
        saveOk 3 "w"
          (stage3_save_dict [exE0] (reorder_texts_with_image [exE0] none))
          [] "T0")) ∧
    ((stage4_translate_with_history
        (stage4_translate_with_history exDirCached [] (.dicts [exR0, exR1])
          "img" (some "img.png") (some exResp1) (.raises "x") "T0").2
        [] (.dicts [exR0, exR1]) "img" (some "img.png") none (.raises "q")
        "T9").1 ≠
      (stage4_translate_with_history exDirCached [] (.dicts [exR0, exR1])
        "img" (some "img.png") (some exResp1) (.raises "x") "T0").1) := by
  have ha := c6_amended_compute_once_second_return_shape.1 [] "w"
    [("text_boxes", .vbboxes [[1, 2, 3, 4]])] [[1, 2, 3, 4]] "T0" (by decide)
    (by decide)
  have h2 := c6_amended_compute_once_second_return_shape.2.1 []
    "w" [[1, 2, 3, 4]] [exE0] "T0" (by decide)
  have h3 := c6_amended_compute_once_second_return_shape.2.2.1 []
    "w" [exE0] none "T0" (by decide) (by decide)
  have hb := c6_amended_compute_once_second_return_shape.2.2.2.1 exDirCached []
    [exR0, exR1] "img" (some "img.png") (some exResp1) (.raises "x") "T0"
    (by decide) (by decide) (by decide) [] none (.raises "q") "T9"
  exact ⟨ha.1, ha.2 [] "T9", h2.2 [] [] "T9", h3.2 [] none "T9", hb.2.2⟩
